import Mathlib

/-!
A shallow embedding of the MAVLink FTP server in
`libraries/GCS_MAVLink/GCS_FTP.cpp` (ArduPilot).  The worker loop body
(`GCS_MAVLINK::ftp_worker`), the helpers `ftp_check_name_len`, `ftp_error`,
`ftp_list_dir` / `gen_dir_entry` and the reply pump `ftp_push_replies` are
translated into pure Lean functions.  Machine integers are `Nat` with
explicit `% 2^w` where the C code can wrap (u16 sequence numbers, u32
offsets and millisecond clocks); the 239-byte `data` buffer is a
`List Nat` of length 239; the filesystem adapter (out of scope for the
source file) is an oracle record `FtpConfig` whose pure functions supply
the results of `stat/open/read/write/unlink/mkdir/rename/crc32/opendir`;
filesystem calls performed by a step are additionally recorded in an
effect trace (`FsAct`) so that "no filesystem change" and "at most one
open handle" are provable statements.
-/

/-- FTP opcodes, `enum class FTP_OP` (GCS.h, mirrored by the dispatch in
GCS_FTP.cpp).  `Other v` stands for any byte that is not a named opcode
(handled by the `default:` branch of the switch). -/
inductive FTP_OP where
  | None
  | TerminateSession
  | ResetSessions
  | ListDirectory
  | OpenFileRO
  | ReadFile
  | CreateFile
  | WriteFile
  | RemoveFile
  | CreateDirectory
  | RemoveDirectory
  | OpenFileWO
  | TruncateFile
  | BurstReadFile
  | Rename
  | CalcFileCRC32
  | Ack
  | Nack
  | Other (v : Nat)
  deriving DecidableEq, Repr

/-- FTP error codes, `enum class FTP_ERROR`. -/
inductive FTP_ERROR where
  | None
  | Fail
  | FailErrno
  | InvalidDataSize
  | InvalidSession
  | NoSessionsAvailable
  | EndOfFile
  | UnknownCommand
  | FileExists
  | FileNotFound
  deriving DecidableEq, Repr

/-- Wire value of an error code (the byte stored into `data[0]` of a Nack). -/
def errCode : FTP_ERROR → Nat
  | .None => 0
  | .Fail => 1
  | .FailErrno => 2
  | .InvalidDataSize => 3
  | .InvalidSession => 4
  | .NoSessionsAvailable => 5
  | .EndOfFile => 6
  | .UnknownCommand => 7
  | .FileExists => 8
  | .FileNotFound => 9

/-- `O_RDONLY` / `O_WRONLY` moded file, `enum class FTP_FILE_MODE`. -/
inductive FTP_FILE_MODE where
  | Read
  | Write
  deriving DecidableEq, Repr

/-- Host errno value for `EEXIST` (translated by `ftp_error`). -/
def EEXIST : Nat := 17

/-- Host errno value for `ENOENT` (translated by `ftp_error`). -/
def ENOENT : Nat := 2

/-- The shared request/reply wire record `struct pending_ftp`.
`data` always holds exactly 239 bytes (`sizeof(request.data)`). -/
structure PendingFtp where
  seq_number : Nat := 0
  session : Nat := 0
  opcode : FTP_OP := .None
  size : Nat := 0
  req_opcode : FTP_OP := .None
  burst_complete : Bool := false
  offset : Nat := 0
  data : List Nat := List.replicate 239 0
  chan : Nat := 0
  sysid : Nat := 0
  compid : Nat := 0
  deriving DecidableEq, Repr

instance : Inhabited PendingFtp := ⟨{}⟩

/-- `strnlen(p, n)`: number of bytes before the first NUL, at most `n`. -/
def strnlen (l : List Nat) (n : Nat) : Nat :=
  ((l.take n).takeWhile (fun b => b != 0)).length

/-- `GCS_MAVLINK::ftp_check_name_len` (GCS_FTP.cpp:123-132).  The
`request.size - file_name_len == 1` comparison is size_t arithmetic in C;
it holds exactly when `size = file_name_len + 1`, which `Nat` truncated
subtraction reproduces. -/
def ftp_check_name_len (data : List Nat) (size : Nat) : Bool :=
  let file_name_len := strnlen data 239
  if size = 0 then false
  else if file_name_len = size then true
  else decide (size - file_name_len = 1 ∧ data.getD 238 1 = 0)

/-- `GCS_MAVLINK::ftp_error` (GCS_FTP.cpp:134-155), with the host `errno`
passed explicitly (the C code reads the global `errno`). -/
def ftp_error (r : PendingFtp) (e : FTP_ERROR) (errnoVal : Nat) : PendingFtp :=
  let r0 := { r with opcode := FTP_OP.Nack, data := r.data.set 0 (errCode e), size := 1 }
  if e = FTP_ERROR.FailErrno then
    if errnoVal = EEXIST then
      { r0 with data := r0.data.set 0 (errCode FTP_ERROR.FileExists) }
    else if errnoVal = ENOENT then
      { r0 with data := r0.data.set 0 (errCode FTP_ERROR.FileNotFound) }
    else
      { r0 with data := r0.data.set 1 errnoVal, size := 2 }
  else r0

/-- Acceptance test of the `Rename` payload (GCS_FTP.cpp:560-569).
Returns `true` when the two NUL-separated paths are well formed; the
worker nacks `InvalidDataSize` exactly when this is `false`.
`request.size - (len1+len2) == 2` is size_t arithmetic; it holds exactly
when `size = len1 + len2 + 2`, reproduced by `Nat` subtraction. -/
def rename_accept (data : List Nat) (size : Nat) : Bool :=
  let len1 := strnlen data 237
  let len2 := strnlen (data.drop (len1 + 1)) (239 - (len1 + 1))
  let is_req_size_consider_tnull :=
    decide (size - (len1 + len2) = 2 ∧ data.getD 238 1 = 0)
  !(data.getD len1 1 != 0 ||
    ((!decide (len1 + len2 + 1 = size)) && !is_req_size_consider_tnull) ||
    size == 0)

/-- Open file handle: the snapshot of the file's bytes plus the kernel
file offset.  Models the single `ftp.fd`; `read`/`lseek` act on it.  The
adapter's `read` is assumed to succeed on an open file (adapter failures
are outside the source file). -/
structure OpenFile where
  content : List Nat
  pos : Nat
  deriving DecidableEq, Repr

/-- The worker-owned session state `struct ftp_state` plus the worker's
persistent local `reply` variable (the retransmit cache).  `fd = none`
models `fd == -1`; `current_session` is the C `int16_t` (−1 = none). -/
structure FtpState where
  fd : Option OpenFile
  mode : FTP_FILE_MODE
  current_session : Int
  last_send_ms : Nat
  need_banner_send_mask : Nat
  lastReply : PendingFtp
  deriving DecidableEq, Repr

/-- Filesystem adapter oracle: pure result functions for the `AP::FS()`
calls made by the worker, plus the host `errno` observed on failure.
`seekOk off` is whether `lseek(fd, off, SEEK_SET)` succeeds; `readOk pos
len` whether a `read` of `len` bytes at file position `pos` returns
(`false` models `read() == -1`). -/
structure FtpConfig where
  statSize : List Nat → Option Nat
  openRead : List Nat → Option (List Nat)
  createOk : List Nat → Bool
  openWriteOk : List Nat → Bool
  writeOk : List Nat → Bool
  unlinkOk : List Nat → Bool
  mkdirOk : List Nat → Bool
  renameOk : List Nat → List Nat → Bool
  crc32v : List Nat → Option Nat
  readDir : List Nat → Option (List (Option (List Nat)))
  seekOk : Nat → Bool
  readOk : Nat → Nat → Bool
  errno : Nat

/-- Trace of filesystem adapter calls made during one worker iteration.
`openF` is a successful `open` (a handle is created); `openFailF` a
failed one; `closeF` a `close`.  Directory handles are opened and closed
within `ftp_list_dir` and are not file descriptors. -/
inductive FsAct where
  | openF
  | openFailF
  | closeF
  | seekF (off : Nat)
  | readF (n : Nat)
  | writeF (n : Nat)
  | statF (p : List Nat)
  | unlinkF (p : List Nat)
  | mkdirF (p : List Nat)
  | renameF (a b : List Nat)
  | crcF (p : List Nat)
  | openDirF (p : List Nat)
  | closeDirF
  deriving DecidableEq, Repr

/-- Result of one worker loop iteration: the new state, the replies
transmitted in order, and the filesystem calls performed. -/
structure StepOut where
  state : FtpState
  replies : List PendingFtp
  acts : List FsAct
  deriving Repr

/-- u32 wrap-around subtraction `a - b` as used on `AP_HAL::millis()`
values (`now - ftp.last_send_ms`). -/
def sub32 (a b : Nat) : Nat :=
  (a + (2 ^ 32 - b % 2 ^ 32)) % 2 ^ 32

/-- Little-endian 4-byte encoding, `put_le32_ptr`. -/
def le32 (v : Nat) : List Nat :=
  [v % 256, v / 2 ^ 8 % 256, v / 2 ^ 16 % 256, v / 2 ^ 24 % 256]

/-- The C string stored in `data` after the defensive `data[238] = 0`
null termination: the bytes before the first NUL. -/
def pathOf (data : List Nat) : List Nat :=
  (data.set 238 0).takeWhile (fun b => b != 0)

/-- ASCII bytes of the literal `"@PARAM/param.pck"` (16 bytes, compared
with `strncmp(..., 16)` after a successful `OpenFileRO`). -/
def paramPckBytes : List Nat :=
  [64, 80, 65, 82, 65, 77, 47, 112, 97, 114, 97, 109, 46, 112, 99, 107]

/-- State effects of `GCS_MAVLINK::ftp_push_replies` (GCS_FTP.cpp:158-179):
refresh `last_send_ms` (zeroed when the reply answers `TerminateSession`)
and drain a pending banner bit for the channel.  The transmit itself is
modelled by appending the reply to the step's output list. -/
def pushState (st : FtpState) (r : PendingFtp) (now : Nat) : FtpState :=
  let lsm := if r.req_opcode = FTP_OP.TerminateSession then 0 else now % 2 ^ 32
  let mask := if st.need_banner_send_mask.testBit r.chan then
      st.need_banner_send_mask - 2 ^ r.chan
    else st.need_banner_send_mask
  { st with last_send_ms := lsm, need_banner_send_mask := mask }

/-- Common tail of the worker loop: push the reply and retain it as the
retransmit cache (`reply` persists into the next iteration). -/
def finishPush (st : FtpState) (reply : PendingFtp) (now : Nat) (acts : List FsAct) : StepOut :=
  { state := { pushState st reply now with lastReply := reply },
    replies := [reply],
    acts := acts }

/-- The zeroed reply header set up at GCS_FTP.cpp:202-208 (memset, then
seq, session, addressing; the u16 `seq_number` store wraps). -/
def mkReplyHeader (request : PendingFtp) : PendingFtp :=
  { seq_number := (request.seq_number + 1) % 2 ^ 16
    session := request.session
    opcode := FTP_OP.None
    size := 0
    req_opcode := request.opcode
    burst_complete := false
    offset := 0
    data := List.replicate 239 0
    chan := request.chan
    sysid := request.sysid
    compid := request.compid }

/-- Retransmit fast-path test (GCS_FTP.cpp:195-196).  In C the
`request.seq_number + 1 == reply.seq_number` comparison is done in `int`,
so it does not wrap. -/
def retransmitMatch (lastReply request : PendingFtp) : Prop :=
  request.sysid = lastReply.sysid ∧ request.compid = lastReply.compid ∧
  request.session = lastReply.session ∧ request.seq_number + 1 = lastReply.seq_number

instance (l r : PendingFtp) : Decidable (retransmitMatch l r) := by
  unfold retransmitMatch; infer_instance

/-- Result of the burst-read loop: replies pushed from inside the loop,
the final value of the worker's `reply` variable, the updated state
(push effects), file handle (advanced offset) and read trace. -/
structure BurstRes where
  emitted : List PendingFtp
  reply : PendingFtp
  st : FtpState
  f : OpenFile
  acts : List FsAct

/-- One `AP::FS().read(ftp.fd, reply.data, MIN(sizeof(reply.data),
max_read))` call on the open-file snapshot: the bytes it returns. -/
def burstRead (f : OpenFile) (maxRead : Nat) : List Nat :=
  (f.content.drop f.pos).take (min 239 maxRead)

/-- The ACK built inside the burst loop (GCS_FTP.cpp:522-535): data with
zero-filled tail, `offset = request.offset + i * max_read` (u32),
`burst_complete` on a short read or the 500th packet, `size` the bytes
read. -/
def burstSent (reply : PendingFtp) (chunk : List Nat) (maxRead reqOff i : Nat) : PendingFtp :=
  { reply with
    data := chunk ++ List.replicate (239 - chunk.length) 0
    opcode := FTP_OP.Ack
    offset := (reqOff + i * maxRead) % 2 ^ 32
    burst_complete := decide (chunk.length < maxRead) || decide (i = 499)
    size := chunk.length }

/-- The worker's `reply` after pushing a burst ACK: offset advanced by a
short read (so the next NACK carries the right offset) and `seq_number`
incremented with u16 wrap (GCS_FTP.cpp:539-545). -/
def burstNext (sent : PendingFtp) (n maxRead : Nat) : PendingFtp :=
  let adj := if n < maxRead then { sent with offset := (sent.offset + n) % 2 ^ 32 } else sent
  { adj with seq_number := (adj.seq_number + 1) % 2 ^ 16 }

/-- The `BurstReadFile` loop (GCS_FTP.cpp:513-548), `transfer_size = 500`
iterations of: read up to `min(239, max_read)` bytes; a failed read
(`read() == -1`, GCS_FTP.cpp:517-520) nacks `FailErrno` and stops, a
zero-byte read zero-fills the buffer and nacks `EndOfFile`, otherwise
the tail is zero-filled and an ACK pushed.  The inter-packet pacing
delay is wall-clock only and is not modelled. -/
def burstLoop (cfg : FtpConfig) (now maxRead reqOff : Nat) :
    Nat → Nat → OpenFile → PendingFtp → FtpState → BurstRes
  | _, 0, f, reply, st => ⟨[], reply, st, f, []⟩
  | i, fuel + 1, f, reply, st =>
    if cfg.readOk f.pos (min 239 maxRead) then
      let chunk := burstRead f maxRead
      let n := chunk.length
      let f1 := { f with pos := f.pos + n }
      if n = 0 then
        ⟨[], ftp_error { reply with data := chunk ++ List.replicate (239 - n) 0 }
          FTP_ERROR.EndOfFile cfg.errno, st, f1, [FsAct.readF n]⟩
      else
        let sent := burstSent reply chunk maxRead reqOff i
        let res := burstLoop cfg now maxRead reqOff (i + 1) fuel f1
          (burstNext sent n maxRead) (pushState st sent now)
        ⟨sent :: res.emitted, res.reply, res.st, res.f, FsAct.readF n :: res.acts⟩
    else
      ⟨[], ftp_error reply FTP_ERROR.FailErrno cfg.errno, st, f, [FsAct.readF 0]⟩

/-- `gen_dir_entry` (GCS_FTP.cpp:598-640) abstracted over the directory
entry: `none` stands for an entry that cannot be listed (wrong `d_type`
or failed `stat`), `some r` for one whose formatted record is the byte
list `r` (NUL separator included).  With fewer than 3 bytes of space the
function bails out with −1 before formatting; otherwise `snprintf`
reports the full record length regardless of truncation. -/
def gen_needed (space : Nat) (e : Option (List Nat)) : Int :=
  if space < 3 then -1
  else match e with
    | Option.none => -1
    | Option.some r => r.length

/-- The skip loop of `ftp_list_dir` (GCS_FTP.cpp:668-684): burn
`request.offset` listable entries; entries whose generation returns a
negative value, or needs more than 239 bytes, do not count against the
skip counter.  Returns the remaining entries, or `none` when the
directory is exhausted first (`EndOfFile`). -/
def skipEntries : Nat → List (Option (List Nat)) → Option (List (Option (List Nat)))
  | 0, es => some es
  | _ + 1, [] => none
  | off + 1, e :: es =>
    if gen_needed 239 e < 0 ∨ 239 < gen_needed 239 e then skipEntries (off + 1) es
    else skipEntries off es

/-- Write `bytes` into `buf` starting at index `i` (the effect of a
successful `snprintf` into `response.data + index`). -/
def listWrite (buf : List Nat) (i : Nat) (bytes : List Nat) : List Nat :=
  buf.take i ++ bytes ++ buf.drop (i + bytes.length)

/-- The packing loop of `ftp_list_dir` (GCS_FTP.cpp:687-705): append
records while they fit; a record that would not fit at all is dropped
(`continue`); the first record that does not fit in the remaining space
ends the loop.  A packed record occupies its bytes plus the `snprintf`
terminator, so the index steps by `required_space + 1`. -/
def packEntries : List (Option (List Nat)) → Nat → List Nat → Nat × List Nat
  | [], index, buf => (index, buf)
  | e :: es, index, buf =>
    let required := gen_needed (239 - index) e
    if required < 0 then packEntries es index buf
    else if 239 ≤ required.toNat + index then (index, buf)
    else packEntries es (index + required.toNat + 1)
        (listWrite buf index (e.getD [] ++ [0]))

/-- The final `memset(response.data + index, 0, ...)` of `ftp_list_dir`:
keep the packed bytes, zero everything from `index` on. -/
def zeroFill (buf : List Nat) (i : Nat) : List Nat :=
  buf.take i ++ List.replicate (239 - i) 0

/-- The directory path the listing operates on: `data` after the
defensive `data[238] = 0` and the trailing-slash strip
(GCS_FTP.cpp:652-657), read as a C string. -/
def listPath (data : List Nat) : List Nat :=
  let d := data.set 238 0
  let dirLen := strnlen d 239
  let d2 := if 1 < dirLen ∧ d.getD (dirLen - 1) 0 = 47 then d.set (dirLen - 1) 0 else d
  d2.takeWhile (fun b => b != 0)

/-- `GCS_MAVLINK::ftp_list_dir` (GCS_FTP.cpp:643-722) against the oracle
directory listing.  Scratch writes made into `response.data` by skipped
or failed generation attempts are erased by the final `memset` (or
overwritten by later successful records) and are not modelled. -/
def ftp_list_dir (cfg : FtpConfig) (request reply : PendingFtp) : PendingFtp × List FsAct :=
  let reply := { reply with offset := request.offset }
  if ¬ ftp_check_name_len request.data request.size then
    (ftp_error reply FTP_ERROR.InvalidDataSize cfg.errno, [])
  else
    let path := listPath request.data
    match cfg.readDir path with
    | Option.none => (ftp_error reply FTP_ERROR.FailErrno cfg.errno, [FsAct.openDirF path])
    | Option.some entries =>
      match skipEntries request.offset entries with
      | Option.none =>
        (ftp_error reply FTP_ERROR.EndOfFile cfg.errno, [FsAct.openDirF path, FsAct.closeDirF])
      | Option.some rest =>
        let ib := packEntries rest 0 (List.replicate 239 0)
        if ib.1 = 0 then
          (ftp_error reply FTP_ERROR.EndOfFile cfg.errno, [FsAct.openDirF path, FsAct.closeDirF])
        else
          ({ reply with opcode := FTP_OP.Ack, size := ib.1, data := zeroFill ib.2 ib.1 },
           [FsAct.openDirF path, FsAct.closeDirF])

/-- Body of the `OpenFileRO` case (GCS_FTP.cpp:269-307), entered after
the in-branch second-chance idle reclaim: reject if a file is still
open, validate the path, `stat` for the size, open read-only, claim the
session, and queue the parameter banner for `@PARAM/param.pck`. -/
def openRO_body (cfg : FtpConfig) (st1 : FtpState) (reply request : PendingFtp)
    (now : Nat) (acts1 : List FsAct) : StepOut :=
  if st1.fd.isSome then
    finishPush st1 (ftp_error reply FTP_ERROR.Fail cfg.errno) now acts1
  else if ¬ ftp_check_name_len request.data request.size then
    finishPush st1 (ftp_error reply FTP_ERROR.InvalidDataSize cfg.errno) now acts1
  else
    let path := pathOf request.data
    match cfg.statSize path with
    | Option.none =>
      finishPush st1 (ftp_error reply FTP_ERROR.FailErrno cfg.errno) now
        (acts1 ++ [FsAct.statF path])
    | Option.some file_size =>
      match cfg.openRead path with
      | Option.none =>
        finishPush st1 (ftp_error reply FTP_ERROR.FailErrno cfg.errno) now
          (acts1 ++ [FsAct.statF path, FsAct.openFailF])
      | Option.some content =>
        let st2 := { st1 with
          fd := some ⟨content, 0⟩
          mode := FTP_FILE_MODE.Read
          current_session := (request.session : Int) }
        let st3 :=
          if request.data.take 16 = paramPckBytes then
            { st2 with need_banner_send_mask := st2.need_banner_send_mask ||| 2 ^ reply.chan }
          else st2
        finishPush st3
          { reply with
            opcode := FTP_OP.Ack
            size := 4
            data := le32 file_size ++ List.replicate 235 0 } now
          (acts1 ++ [FsAct.statF path, FsAct.openF])

/-- The opcode dispatch switch of `ftp_worker` (GCS_FTP.cpp:241-586),
entered with the (possibly idle-reclaimed) state and the fresh reply
header.  `acts0` carries the close action of the pre-dispatch reclaim. -/
def ftp_dispatch (cfg : FtpConfig) (st : FtpState) (reply request : PendingFtp)
    (now : Nat) (acts0 : List FsAct) : StepOut :=
  match request.opcode with
  | FTP_OP.None =>
    finishPush st { reply with opcode := FTP_OP.Ack } now acts0
  | FTP_OP.TerminateSession | FTP_OP.ResetSessions =>
    let out := match st.fd with
      | some _ => ({ st with fd := none, current_session := -1 }, acts0 ++ [FsAct.closeF])
      | none => ({ st with current_session := -1 }, acts0)
    finishPush out.1 { reply with opcode := FTP_OP.Ack } now out.2
  | FTP_OP.ListDirectory =>
    let ra := ftp_list_dir cfg request reply
    finishPush st ra.1 now (acts0 ++ ra.2)
  | FTP_OP.OpenFileRO =>
    let sa :=
      if st.fd.isSome ∧ 3000 < sub32 now st.last_send_ms then
        ({ st with fd := none, current_session := -1 }, acts0 ++ [FsAct.closeF])
      else (st, acts0)
    openRO_body cfg sa.1 reply request now sa.2
  | FTP_OP.ReadFile =>
    match st.fd with
    | Option.none => finishPush st (ftp_error reply FTP_ERROR.FileNotFound cfg.errno) now acts0
    | Option.some f =>
      if st.mode ≠ FTP_FILE_MODE.Read then
        finishPush st (ftp_error reply FTP_ERROR.Fail cfg.errno) now acts0
      else if cfg.seekOk request.offset then
        if cfg.readOk request.offset (min 239 request.size) then
          let chunk := (f.content.drop request.offset).take (min 239 request.size)
          let n := chunk.length
          let st1 := { st with fd := some { f with pos := request.offset + n } }
          let acts1 := acts0 ++ [FsAct.seekF request.offset, FsAct.readF n]
          if n = 0 then
            finishPush st1 (ftp_error reply FTP_ERROR.EndOfFile cfg.errno) now acts1
          else
            finishPush st1
              { reply with
                opcode := FTP_OP.Ack
                offset := request.offset
                size := n
                data := chunk ++ List.replicate (239 - n) 0 } now acts1
        else
          finishPush { st with fd := some { f with pos := request.offset } }
            (ftp_error reply FTP_ERROR.FailErrno cfg.errno) now
            (acts0 ++ [FsAct.seekF request.offset, FsAct.readF 0])
      else
        finishPush st (ftp_error reply FTP_ERROR.FailErrno cfg.errno) now
          (acts0 ++ [FsAct.seekF request.offset])
  | FTP_OP.Ack =>
    { state := { st with lastReply := reply }, replies := [], acts := acts0 }
  | FTP_OP.Nack =>
    { state := { st with lastReply := reply }, replies := [], acts := acts0 }
  | FTP_OP.OpenFileWO | FTP_OP.CreateFile =>
    if st.fd.isSome then
      finishPush st (ftp_error reply FTP_ERROR.Fail cfg.errno) now acts0
    else if ¬ ftp_check_name_len request.data request.size then
      finishPush st (ftp_error reply FTP_ERROR.InvalidDataSize cfg.errno) now acts0
    else
      let path := pathOf request.data
      let ok := if request.opcode = FTP_OP.CreateFile then cfg.createOk path
        else cfg.openWriteOk path
      if ok then
        finishPush
          { st with
            fd := some ⟨[], 0⟩
            mode := FTP_FILE_MODE.Write
            current_session := (request.session : Int) }
          { reply with opcode := FTP_OP.Ack } now (acts0 ++ [FsAct.openF])
      else
        finishPush st (ftp_error reply FTP_ERROR.FailErrno cfg.errno) now
          (acts0 ++ [FsAct.openFailF])
  | FTP_OP.WriteFile =>
    match st.fd with
    | Option.none => finishPush st (ftp_error reply FTP_ERROR.FileNotFound cfg.errno) now acts0
    | Option.some _ =>
      if st.mode ≠ FTP_FILE_MODE.Write then
        finishPush st (ftp_error reply FTP_ERROR.Fail cfg.errno) now acts0
      else if cfg.seekOk request.offset then
        let acts1 := acts0 ++ [FsAct.seekF request.offset, FsAct.writeF request.size]
        if cfg.writeOk (request.data.take request.size) then
          finishPush st { reply with opcode := FTP_OP.Ack, offset := request.offset } now acts1
        else
          finishPush st (ftp_error reply FTP_ERROR.FailErrno cfg.errno) now acts1
      else
        finishPush st (ftp_error reply FTP_ERROR.FailErrno cfg.errno) now
          (acts0 ++ [FsAct.seekF request.offset])
  | FTP_OP.CreateDirectory =>
    if ¬ ftp_check_name_len request.data request.size then
      finishPush st (ftp_error reply FTP_ERROR.InvalidDataSize cfg.errno) now acts0
    else
      let path := pathOf request.data
      if cfg.mkdirOk path then
        finishPush st { reply with opcode := FTP_OP.Ack } now (acts0 ++ [FsAct.mkdirF path])
      else
        finishPush st (ftp_error reply FTP_ERROR.FailErrno cfg.errno) now
          (acts0 ++ [FsAct.mkdirF path])
  | FTP_OP.RemoveDirectory | FTP_OP.RemoveFile =>
    if ¬ ftp_check_name_len request.data request.size then
      finishPush st (ftp_error reply FTP_ERROR.InvalidDataSize cfg.errno) now acts0
    else
      let path := pathOf request.data
      if cfg.unlinkOk path then
        finishPush st { reply with opcode := FTP_OP.Ack } now (acts0 ++ [FsAct.unlinkF path])
      else
        finishPush st (ftp_error reply FTP_ERROR.FailErrno cfg.errno) now
          (acts0 ++ [FsAct.unlinkF path])
  | FTP_OP.CalcFileCRC32 =>
    if ¬ ftp_check_name_len request.data request.size then
      finishPush st (ftp_error reply FTP_ERROR.InvalidDataSize cfg.errno) now acts0
    else
      let path := pathOf request.data
      match cfg.crc32v path with
      | Option.none =>
        finishPush st (ftp_error reply FTP_ERROR.FailErrno cfg.errno) now
          (acts0 ++ [FsAct.crcF path])
      | Option.some checksum =>
        finishPush st
          { reply with
            opcode := FTP_OP.Ack
            size := 4
            data := le32 checksum ++ List.replicate 235 0 } now
          (acts0 ++ [FsAct.crcF path])
  | FTP_OP.BurstReadFile =>
    let maxRead := if request.size = 0 then 239 else request.size
    match st.fd with
    | Option.none => finishPush st (ftp_error reply FTP_ERROR.FileNotFound cfg.errno) now acts0
    | Option.some f =>
      if st.mode ≠ FTP_FILE_MODE.Read then
        finishPush st (ftp_error reply FTP_ERROR.Fail cfg.errno) now acts0
      else if cfg.seekOk request.offset then
        let res := burstLoop cfg now maxRead request.offset 0 500
          { f with pos := request.offset } reply st
        let st2 := { res.st with fd := some res.f }
        if res.reply.opcode = FTP_OP.Nack then
          { state := { pushState st2 res.reply now with lastReply := res.reply },
            replies := res.emitted ++ [res.reply],
            acts := acts0 ++ FsAct.seekF request.offset :: res.acts }
        else
          { state := { st2 with lastReply := res.reply },
            replies := res.emitted,
            acts := acts0 ++ FsAct.seekF request.offset :: res.acts }
      else
        finishPush st (ftp_error reply FTP_ERROR.FailErrno cfg.errno) now
          (acts0 ++ [FsAct.seekF request.offset])
  | FTP_OP.Rename =>
    if rename_accept request.data request.size then
      let d2 := request.data.set 238 0
      let len1 := strnlen request.data 237
      let p1 := d2.takeWhile (fun b => b != 0)
      let p2 := (d2.drop (len1 + 1)).takeWhile (fun b => b != 0)
      if cfg.renameOk p1 p2 then
        finishPush st { reply with opcode := FTP_OP.Ack } now (acts0 ++ [FsAct.renameF p1 p2])
      else
        finishPush st (ftp_error reply FTP_ERROR.FailErrno cfg.errno) now
          (acts0 ++ [FsAct.renameF p1 p2])
    else
      finishPush st (ftp_error reply FTP_ERROR.InvalidDataSize cfg.errno) now acts0
  | FTP_OP.TruncateFile =>
    finishPush st (ftp_error reply FTP_ERROR.Fail cfg.errno) now acts0
  | FTP_OP.Other _ =>
    finishPush st (ftp_error reply FTP_ERROR.Fail cfg.errno) now acts0

/-- The pre-dispatch session checks of `ftp_worker` (GCS_FTP.cpp:219-239):
terminate/reset of a foreign session acks immediately; a foreign-session
request while a file is open is nacked `InvalidSession` inside the
timeout and reclaims the idle session past it. -/
def sessionCheck (cfg : FtpConfig) (st : FtpState) (reply request : PendingFtp)
    (now : Nat) : StepOut :=
  if (request.session : Int) ≠ st.current_session ∧
      (request.opcode = FTP_OP.TerminateSession ∨ request.opcode = FTP_OP.ResetSessions) then
    finishPush st { reply with opcode := FTP_OP.Ack } now []
  else if st.fd.isSome ∧ (request.session : Int) ≠ st.current_session ∧
      sub32 now st.last_send_ms < 3000 then
    finishPush st (ftp_error reply FTP_ERROR.InvalidSession cfg.errno) now []
  else if st.fd.isSome ∧ (request.session : Int) ≠ st.current_session ∧
      ¬ sub32 now st.last_send_ms < 3000 then
    ftp_dispatch cfg { st with fd := none, current_session := -1 } reply request now
      [FsAct.closeF]
  else
    ftp_dispatch cfg st reply request now []

/-- One iteration of the worker loop body (GCS_FTP.cpp:186-594) on a
popped request: retransmit fast path, reply header setup, size sanity
check, session checks, dispatch, final push. -/
def ftp_worker_step (cfg : FtpConfig) (st : FtpState) (request : PendingFtp)
    (now : Nat) : StepOut :=
  if retransmitMatch st.lastReply request then
    { state := pushState st st.lastReply now, replies := [st.lastReply], acts := [] }
  else
    let reply := mkReplyHeader request
    if 239 < request.size then
      finishPush st (ftp_error reply FTP_ERROR.InvalidDataSize cfg.errno) now []
    else
      sessionCheck cfg st reply request now

/-- Startup state: `fd = -1`, `current_session = -1`, zeroed clock and
mask, and the worker's initial `reply` whose `session` byte is set to
`(uint8_t)-1 = 255` to flag it invalid for retransmit matching. -/
def initFtpState : FtpState :=
  { fd := none
    mode := FTP_FILE_MODE.Read
    current_session := -1
    last_send_ms := 0
    need_banner_send_mask := 0
    lastReply := { session := 255 } }

/-- A filesystem oracle failing every path-based call, used for concrete
witnesses; seeks and reads on an already-open handle succeed. -/
def cfg0 : FtpConfig :=
  { statSize := fun _ => none
    openRead := fun _ => none
    createOk := fun _ => false
    openWriteOk := fun _ => false
    writeOk := fun _ => false
    unlinkOk := fun _ => false
    mkdirOk := fun _ => false
    renameOk := fun _ _ => true
    crc32v := fun _ => none
    readDir := fun _ => none
    seekOk := fun _ => true
    readOk := fun _ _ => true
    errno := 5 }

/-- Concrete retransmit scenario for the C1 witness. -/
def reqC1 : PendingFtp :=
  { seq_number := 10, session := 3, opcode := FTP_OP.OpenFileRO, sysid := 7, compid := 1 }

/-- Cached state matching `reqC1` for the C1 witness. -/
def stC1 : FtpState :=
  { initFtpState with
    lastReply := { seq_number := 11, session := 3, opcode := FTP_OP.Ack,
                   req_opcode := FTP_OP.OpenFileRO, sysid := 7, compid := 1 } }

/-- Concrete foreign terminate for the C2 witness. -/
def reqC2 : PendingFtp :=
  { seq_number := 4, session := 9, opcode := FTP_OP.TerminateSession }

/-- Invariant 5 of the spec, per reply list: the `j`-th reply transmitted
for a request carries the base sequence number plus `j` (u16) and echoes
the request opcode. -/
def SeqOk (reply : PendingFtp) (rs : List PendingFtp) : Prop :=
  ∀ j (hj : j < rs.length),
    ((rs.get ⟨j, hj⟩).seq_number = (reply.seq_number + j) % 2 ^ 16 ∧
     (rs.get ⟨j, hj⟩).req_opcode = reply.req_opcode)

/-- The per-step form of invariant 5: the `j`-th reply of the step
carries `request.seq_number + 1 + j` (u16) and, unless the retransmit
fast path fired, echoes the request opcode. -/
def StepSeqOk (st : FtpState) (request : PendingFtp) (rs : List PendingFtp) : Prop :=
  ∀ j (hj : j < rs.length),
    ((rs.get ⟨j, hj⟩).seq_number = (request.seq_number + 1 + j) % 2 ^ 16 ∧
     (¬ retransmitMatch st.lastReply request →
       (rs.get ⟨j, hj⟩).req_opcode = request.opcode))

/-- The number of bytes the `j`-th burst read returns when every earlier
read was full: `min max_read (file_length - (request.offset + j * max_read))`. -/
def burstN (maxRead reqOff L j : Nat) : Nat :=
  min maxRead (L - (reqOff + j * maxRead))

/-- Specification of the burst loop output from iteration `i` with
`fuel` iterations left, over a file of length `L`: at most `fuel` ACKs,
the `j`-th ACK carries the claimed offset, size and `burst_complete`
flag; the loop stops early on a terminating Nack, which is the
`EndOfFile` nack of a zero-byte read when the read at the final file
position succeeded, and the `FailErrno` nack of a failed read (never
carrying the `EndOfFile` code) otherwise. -/
def BurstOut (cfg : FtpConfig) (maxRead reqOff L i fuel : Nat) (res : BurstRes) : Prop :=
  res.emitted.length ≤ fuel ∧
  (∀ j (hj : j < res.emitted.length),
    ((res.emitted.get ⟨j, hj⟩).opcode = FTP_OP.Ack ∧
     (res.emitted.get ⟨j, hj⟩).offset = (reqOff + (i + j) * maxRead) % 2 ^ 32 ∧
     (res.emitted.get ⟨j, hj⟩).size = burstN maxRead reqOff L (i + j) ∧
     0 < burstN maxRead reqOff L (i + j) ∧
     ((res.emitted.get ⟨j, hj⟩).burst_complete = true ↔
       (burstN maxRead reqOff L (i + j) < maxRead ∨ i + j = 499)))) ∧
  (res.reply.opcode = FTP_OP.Nack →
    (res.emitted.length + 1 ≤ fuel ∧
     ((cfg.readOk res.f.pos (min 239 maxRead) = true ∧
       burstN maxRead reqOff L (i + res.emitted.length) = 0 ∧
       res.reply.data.getD 0 1 = errCode FTP_ERROR.EndOfFile ∧
       res.reply.size = 1) ∨
      (cfg.readOk res.f.pos (min 239 maxRead) = false ∧
       res.reply.data.getD 0 1 ≠ errCode FTP_ERROR.EndOfFile)))) ∧
  (res.reply.opcode ≠ FTP_OP.Nack → res.emitted.length = fuel)

/-- The per-request form of the burst-read contract: at most 500
replies; every reply is an ACK or a Nack; the `j`-th ACK carries
`offset = request.offset + j * max_read` (u32), `size` equal to the
bytes read, and `burst_complete` exactly on a short read or the 500th
packet; a Nack (`EndOfFile` terminator of a zero-byte read, or the
`FailErrno` of a failed seek or read) is the last reply, and when it
carries the `EndOfFile` code no bytes remained to read. -/
def BurstStepOk (maxRead reqOff L : Nat) (rs : List PendingFtp) : Prop :=
  rs.length ≤ 500 ∧
  ∀ j (hj : j < rs.length),
    (((rs.get ⟨j, hj⟩).opcode = FTP_OP.Ack ∨ (rs.get ⟨j, hj⟩).opcode = FTP_OP.Nack) ∧
     ((rs.get ⟨j, hj⟩).opcode = FTP_OP.Ack →
       ((rs.get ⟨j, hj⟩).offset = (reqOff + j * maxRead) % 2 ^ 32 ∧
        (rs.get ⟨j, hj⟩).size = burstN maxRead reqOff L j ∧
        0 < burstN maxRead reqOff L j ∧
        ((rs.get ⟨j, hj⟩).burst_complete = true ↔
          (burstN maxRead reqOff L j < maxRead ∨ j = 499)))) ∧
     ((rs.get ⟨j, hj⟩).opcode = FTP_OP.Nack →
       (j = rs.length - 1 ∧
        ((rs.get ⟨j, hj⟩).data.getD 0 1 = errCode FTP_ERROR.EndOfFile →
          ((rs.get ⟨j, hj⟩).size = 1 ∧ burstN maxRead reqOff L j = 0)))))

/-- Open read-mode state on a 2-byte file, shared by the C4
counterexample and the C5 witness. -/
def stC4 : FtpState :=
  { fd := some ⟨[7, 8], 0⟩
    mode := FTP_FILE_MODE.Read
    current_session := 5
    last_send_ms := 0
    need_banner_send_mask := 0
    lastReply := { session := 255 } }

/-- `BurstReadFile` of chunk size 1 for the C4 counterexample. -/
def reqC4 : PendingFtp :=
  { seq_number := 10, session := 5, opcode := FTP_OP.BurstReadFile, size := 1 }

/-- Oracle whose `read` calls fail (`read() == -1`), driving the burst
loop into its `FailErrno` branch for the C5 witness. -/
def cfgC5f : FtpConfig :=
  { cfg0 with readOk := fun _ _ => false }

/-- Concrete `ReadFile` with no open file for the C10 witness. -/
def reqC10 : PendingFtp :=
  { seq_number := 1, session := 0, opcode := FTP_OP.ReadFile }

/-- Net effect of one filesystem call on the number of open file
descriptors: a successful `open` creates one, `close` destroys one;
nothing else (directory handles included) touches file descriptors. -/
def handleDelta : FsAct → Int
  | FsAct.openF => 1
  | FsAct.openFailF => 0
  | FsAct.closeF => -1
  | FsAct.seekF _ => 0
  | FsAct.readF _ => 0
  | FsAct.writeF _ => 0
  | FsAct.statF _ => 0
  | FsAct.unlinkF _ => 0
  | FsAct.mkdirF _ => 0
  | FsAct.renameF _ _ => 0
  | FsAct.crcF _ => 0
  | FsAct.openDirF _ => 0
  | FsAct.closeDirF => 0

/-- Open-descriptor count after running a trace from `c` descriptors. -/
def countAfter (c : Int) (l : List FsAct) : Int :=
  l.foldl (fun acc a => acc + handleDelta a) c

/-- The trace keeps the open-descriptor count within `[0, 1]` at every
intermediate point: never a double open, never a close without an open. -/
def goodTrace : Int → List FsAct → Prop
  | c, [] => 0 ≤ c ∧ c ≤ 1
  | c, a :: l => 0 ≤ c ∧ c ≤ 1 ∧ goodTrace (c + handleDelta a) l

/-- The number of open descriptors recorded in the session state. -/
def fdCount (st : FtpState) : Int :=
  if st.fd.isSome then 1 else 0

/-- Invariant 1 of the spec: a file is open exactly when a session owns it. -/
def SessionInv (st : FtpState) : Prop :=
  st.fd.isSome = true ↔ st.current_session ≠ -1

/-- Oracle that lets `OpenFileRO` succeed, for the C3 witness. -/
def cfgC3 : FtpConfig :=
  { cfg0 with
    statSize := fun _ => some 3
    openRead := fun _ => some [1, 2, 3] }

/-- A valid `OpenFileRO` request for the C3 witness. -/
def reqC3 : PendingFtp :=
  { seq_number := 2, session := 7, opcode := FTP_OP.OpenFileRO, size := 1,
    data := 97 :: List.replicate 238 0 }

/-- A state whose (empty) session id is 0, so that session checks pass
for the C7 witness requests. -/
def stC7 : FtpState :=
  { initFtpState with current_session := 0 }

/-- Rename request with payload `"a\0b\0"` and size 4 (C7 witness). -/
def reqC7a : PendingFtp :=
  { seq_number := 1, session := 0, opcode := FTP_OP.Rename, size := 4,
    data := [97, 0, 98, 0] ++ List.replicate 235 0 }

/-- Rename request with payload `"a\0b"` and size 3 (C7 witness). -/
def reqC7b : PendingFtp :=
  { seq_number := 1, session := 0, opcode := FTP_OP.Rename, size := 3,
    data := [97, 0, 98] ++ List.replicate 236 0 }

/-- Rename request with payload `"ab"` and size 2 (C7 witness). -/
def reqC7c : PendingFtp :=
  { seq_number := 1, session := 0, opcode := FTP_OP.Rename, size := 2,
    data := [97, 98] ++ List.replicate 237 0 }

/-- A state whose (empty) session id is 0, so that session checks pass
for the C8 witness requests. -/
def stC8 : FtpState :=
  { initFtpState with current_session := 0 }

/-- Directory contents for the C8 witness: one unlistable entry followed
by two listable ones with 2-byte records. -/
def entriesC8 : List (Option (List Nat)) :=
  [Option.none, Option.some [102, 49], Option.some [102, 50]]

/-- Oracle for the C8 witness: listing `/` yields `entriesC8`. -/
def cfgC8 : FtpConfig :=
  { cfg0 with readDir := fun p => if p = [47] then some entriesC8 else none }

/-- ListDirectory request for `/` with offset 1 (C8 witness): the
unlistable entry must not count against the skip, so the skip consumes
the first listable entry and the second is packed. -/
def reqC8 : PendingFtp :=
  { seq_number := 5, session := 0, opcode := FTP_OP.ListDirectory, size := 2,
    offset := 1, data := [47] ++ List.replicate 238 0 }

/-- ListDirectory request for `/` with offset 9 (C8 witness): the skip
exhausts the directory, so the reply is an EndOfFile Nack. -/
def reqC8e : PendingFtp :=
  { seq_number := 6, session := 0, opcode := FTP_OP.ListDirectory, size := 2,
    offset := 9, data := [47] ++ List.replicate 238 0 }

theorem burstLoop_zero (cfg : FtpConfig) (now maxRead reqOff i : Nat) (f : OpenFile)
    (reply : PendingFtp) (st : FtpState) :
    burstLoop cfg now maxRead reqOff i 0 f reply st = ⟨[], reply, st, f, []⟩ := rfl

theorem burstLoop_succ_fail (cfg : FtpConfig) (now maxRead reqOff i fuel : Nat) (f : OpenFile)
    (reply : PendingFtp) (st : FtpState)
    (hrd : cfg.readOk f.pos (min 239 maxRead) = false) :
    burstLoop cfg now maxRead reqOff i (fuel + 1) f reply st =
      ⟨[], ftp_error reply FTP_ERROR.FailErrno cfg.errno, st, f, [FsAct.readF 0]⟩ := by
  simp only [burstLoop]
  rw [if_neg (by rw [hrd]; exact Bool.false_ne_true)]

theorem burstLoop_succ_eof (cfg : FtpConfig) (now maxRead reqOff i fuel : Nat) (f : OpenFile)
    (reply : PendingFtp) (st : FtpState)
    (hrd : cfg.readOk f.pos (min 239 maxRead) = true)
    (hn : (burstRead f maxRead).length = 0) :
    burstLoop cfg now maxRead reqOff i (fuel + 1) f reply st =
      ⟨[], ftp_error { reply with
          data := burstRead f maxRead ++ List.replicate (239 - (burstRead f maxRead).length) 0 }
        FTP_ERROR.EndOfFile cfg.errno, st,
        { f with pos := f.pos + (burstRead f maxRead).length },
        [FsAct.readF (burstRead f maxRead).length]⟩ := by
  simp only [burstLoop]
  rw [if_pos hrd, if_pos hn]

theorem burstLoop_succ_pos (cfg : FtpConfig) (now maxRead reqOff i fuel : Nat) (f : OpenFile)
    (reply : PendingFtp) (st : FtpState)
    (hrd : cfg.readOk f.pos (min 239 maxRead) = true)
    (hn : ¬ (burstRead f maxRead).length = 0) :
    burstLoop cfg now maxRead reqOff i (fuel + 1) f reply st =
      ⟨burstSent reply (burstRead f maxRead) maxRead reqOff i ::
        (burstLoop cfg now maxRead reqOff (i + 1) fuel
          { f with pos := f.pos + (burstRead f maxRead).length }
          (burstNext (burstSent reply (burstRead f maxRead) maxRead reqOff i)
            (burstRead f maxRead).length maxRead)
          (pushState st (burstSent reply (burstRead f maxRead) maxRead reqOff i) now)).emitted,
       (burstLoop cfg now maxRead reqOff (i + 1) fuel
          { f with pos := f.pos + (burstRead f maxRead).length }
          (burstNext (burstSent reply (burstRead f maxRead) maxRead reqOff i)
            (burstRead f maxRead).length maxRead)
          (pushState st (burstSent reply (burstRead f maxRead) maxRead reqOff i) now)).reply,
       (burstLoop cfg now maxRead reqOff (i + 1) fuel
          { f with pos := f.pos + (burstRead f maxRead).length }
          (burstNext (burstSent reply (burstRead f maxRead) maxRead reqOff i)
            (burstRead f maxRead).length maxRead)
          (pushState st (burstSent reply (burstRead f maxRead) maxRead reqOff i) now)).st,
       (burstLoop cfg now maxRead reqOff (i + 1) fuel
          { f with pos := f.pos + (burstRead f maxRead).length }
          (burstNext (burstSent reply (burstRead f maxRead) maxRead reqOff i)
            (burstRead f maxRead).length maxRead)
          (pushState st (burstSent reply (burstRead f maxRead) maxRead reqOff i) now)).f,
       FsAct.readF (burstRead f maxRead).length ::
        (burstLoop cfg now maxRead reqOff (i + 1) fuel
          { f with pos := f.pos + (burstRead f maxRead).length }
          (burstNext (burstSent reply (burstRead f maxRead) maxRead reqOff i)
            (burstRead f maxRead).length maxRead)
          (pushState st (burstSent reply (burstRead f maxRead) maxRead reqOff i) now)).acts⟩ := by
  simp only [burstLoop]
  rw [if_pos hrd, if_neg hn]

theorem pushState_fd (st : FtpState) (r : PendingFtp) (now : Nat) :
    (pushState st r now).fd = st.fd := rfl

theorem pushState_mode (st : FtpState) (r : PendingFtp) (now : Nat) :
    (pushState st r now).mode = st.mode := rfl

theorem pushState_cs (st : FtpState) (r : PendingFtp) (now : Nat) :
    (pushState st r now).current_session = st.current_session := rfl

theorem pushState_lastReply (st : FtpState) (r : PendingFtp) (now : Nat) :
    (pushState st r now).lastReply = st.lastReply := rfl

theorem finishPush_replies (st : FtpState) (r : PendingFtp) (now : Nat) (acts : List FsAct) :
    (finishPush st r now acts).replies = [r] := rfl

theorem finishPush_acts (st : FtpState) (r : PendingFtp) (now : Nat) (acts : List FsAct) :
    (finishPush st r now acts).acts = acts := rfl

theorem finishPush_fd (st : FtpState) (r : PendingFtp) (now : Nat) (acts : List FsAct) :
    (finishPush st r now acts).state.fd = st.fd := rfl

theorem finishPush_mode (st : FtpState) (r : PendingFtp) (now : Nat) (acts : List FsAct) :
    (finishPush st r now acts).state.mode = st.mode := rfl

theorem finishPush_cs (st : FtpState) (r : PendingFtp) (now : Nat) (acts : List FsAct) :
    (finishPush st r now acts).state.current_session = st.current_session := rfl

theorem finishPush_lastReply (st : FtpState) (r : PendingFtp) (now : Nat) (acts : List FsAct) :
    (finishPush st r now acts).state.lastReply = r := rfl

theorem ftp_error_seq (r : PendingFtp) (e : FTP_ERROR) (v : Nat) :
    (ftp_error r e v).seq_number = r.seq_number := by
  unfold ftp_error
  split <;> (try split) <;> (try split) <;> rfl

theorem ftp_error_req_opcode (r : PendingFtp) (e : FTP_ERROR) (v : Nat) :
    (ftp_error r e v).req_opcode = r.req_opcode := by
  unfold ftp_error
  split <;> (try split) <;> (try split) <;> rfl

theorem ftp_error_opcode (r : PendingFtp) (e : FTP_ERROR) (v : Nat) :
    (ftp_error r e v).opcode = FTP_OP.Nack := by
  unfold ftp_error
  split <;> (try split) <;> (try split) <;> rfl

/-- C6: `ftp_check_name_len` accepts exactly a positive `size` that
equals `strnlen(data, 239)`, or exceeds it by one with the final data
byte (index 238) zero. -/
theorem check_name_len_spec (data : List Nat) (size : Nat) :
    ftp_check_name_len data size = true ↔
      (0 < size ∧ (strnlen data 239 = size ∨
        (size = strnlen data 239 + 1 ∧ data.getD 238 1 = 0))) := by
  unfold ftp_check_name_len
  by_cases h0 : size = 0
  · simp [h0]
  · by_cases h1 : strnlen data 239 = size
    · simp [h0, h1]
      omega
    · simp [h0, h1]
      constructor
      · rintro ⟨hs, hd⟩
        exact ⟨by omega, by omega, hd⟩
      · rintro ⟨hp, hs, hd⟩
        exact ⟨by omega, hd⟩

/-- C9: every failure reply is a Nack with `data[0]` the error code and
`size = 1`, except that `FailErrno` is translated: `EEXIST` to
`FileExists`, `ENOENT` to `FileNotFound`, and any other errno is
appended as `data[1]` with `size = 2`. -/
theorem ftp_error_translation_spec (r : PendingFtp) (e : FTP_ERROR) (v : Nat)
    (h : r.data.length = 239) :
    (ftp_error r e v).opcode = FTP_OP.Nack ∧
    (e ≠ FTP_ERROR.FailErrno →
      (ftp_error r e v).data.getD 0 1 = errCode e ∧ (ftp_error r e v).size = 1) ∧
    (e = FTP_ERROR.FailErrno → v = EEXIST →
      (ftp_error r e v).data.getD 0 1 = errCode FTP_ERROR.FileExists ∧
      (ftp_error r e v).size = 1) ∧
    (e = FTP_ERROR.FailErrno → v = ENOENT →
      (ftp_error r e v).data.getD 0 1 = errCode FTP_ERROR.FileNotFound ∧
      (ftp_error r e v).size = 1) ∧
    (e = FTP_ERROR.FailErrno → v ≠ EEXIST → v ≠ ENOENT →
      (ftp_error r e v).data.getD 0 1 = errCode FTP_ERROR.FailErrno ∧
      (ftp_error r e v).data.getD 1 0 = v ∧ (ftp_error r e v).size = 2) := by
  rcases hd : r.data with _ | ⟨a, tl⟩
  · rw [hd] at h; simp at h
  · rcases tl with _ | ⟨b, t⟩
    · rw [hd] at h; simp at h
    · unfold ftp_error
      simp only [hd]
      by_cases he : e = FTP_ERROR.FailErrno
      · by_cases h1 : v = EEXIST
        · simp [he, h1, EEXIST, ENOENT]
        · by_cases h2 : v = ENOENT
          · simp [he, h1, h2, EEXIST, ENOENT]
          · simp [he, h1, h2]
      · simp [he]

/-- Witness for C9 at a concrete reply and an untranslated errno. -/
theorem ftp_error_translation_witness :
    (ftp_error {} FTP_ERROR.FailErrno 5).opcode = FTP_OP.Nack ∧
    (ftp_error {} FTP_ERROR.FailErrno 5).data.getD 0 1 = 2 ∧
    (ftp_error {} FTP_ERROR.FailErrno 5).data.getD 1 0 = 5 ∧
    (ftp_error {} FTP_ERROR.FailErrno 5).size = 2 := by
  have h := ftp_error_translation_spec {} FTP_ERROR.FailErrno 5
    (by rw [show ({} : PendingFtp).data = List.replicate 239 0 from rfl, List.length_replicate])
  have h5 := h.2.2.2.2 rfl (by decide) (by decide)
  exact ⟨h.1, h5.1, h5.2.1, h5.2.2⟩

/-- C1: a request matching the cached last reply on sysid, compid and
session with `seq_number + 1` equal to the cached sequence number is
answered by resending the cached reply itself; no dispatch runs, no
filesystem call is made, and `fd`, `mode`, `current_session` and the
cache are untouched (the send pump still refreshes `last_send_ms`, as
every transmitted reply does). -/
theorem retransmit_fast_path_spec (cfg : FtpConfig) (st : FtpState) (request : PendingFtp)
    (now : Nat) (h : retransmitMatch st.lastReply request) :
    (ftp_worker_step cfg st request now).replies = [st.lastReply] ∧
    (ftp_worker_step cfg st request now).acts = [] ∧
    (ftp_worker_step cfg st request now).state.fd = st.fd ∧
    (ftp_worker_step cfg st request now).state.mode = st.mode ∧
    (ftp_worker_step cfg st request now).state.current_session = st.current_session ∧
    (ftp_worker_step cfg st request now).state.lastReply = st.lastReply := by
  unfold ftp_worker_step
  rw [if_pos h]
  exact ⟨rfl, rfl, rfl, rfl, rfl, rfl⟩

/-- Witness for C1: the fast path fires on a concrete retransmit. -/
theorem retransmit_fast_path_witness :
    retransmitMatch stC1.lastReply reqC1 ∧
    (ftp_worker_step cfg0 stC1 reqC1 50).replies = [stC1.lastReply] ∧
    (ftp_worker_step cfg0 stC1 reqC1 50).acts = [] ∧
    (ftp_worker_step cfg0 stC1 reqC1 50).state.fd = stC1.fd := by
  have h := retransmit_fast_path_spec cfg0 stC1 reqC1 50 (by decide)
  exact ⟨by decide, h.1, h.2.1, h.2.2.1⟩

/-- C2: pre-dispatch session handling.  (1) `TerminateSession` or
`ResetSessions` for a foreign session acks immediately with `fd`, `mode`
and `current_session` untouched and no filesystem call; (2) any other
request for a foreign session while a file is open and the idle time is
under 3000 ms nacks `InvalidSession` with no change; (3) past 3000 ms the
file is closed, `current_session` cleared, and dispatch proceeds on the
reclaimed state. -/
theorem session_checks_spec (cfg : FtpConfig) (st : FtpState) (request : PendingFtp)
    (now : Nat) (hre : ¬ retransmitMatch st.lastReply request)
    (hsz : request.size ≤ 239) :
    (((request.session : Int) ≠ st.current_session ∧
        (request.opcode = FTP_OP.TerminateSession ∨ request.opcode = FTP_OP.ResetSessions)) →
      (ftp_worker_step cfg st request now).replies =
        [{ mkReplyHeader request with opcode := FTP_OP.Ack }] ∧
      (ftp_worker_step cfg st request now).acts = [] ∧
      (ftp_worker_step cfg st request now).state.fd = st.fd ∧
      (ftp_worker_step cfg st request now).state.mode = st.mode ∧
      (ftp_worker_step cfg st request now).state.current_session = st.current_session) ∧
    ((st.fd.isSome ∧ (request.session : Int) ≠ st.current_session ∧
        ¬(request.opcode = FTP_OP.TerminateSession ∨ request.opcode = FTP_OP.ResetSessions) ∧
        sub32 now st.last_send_ms < 3000) →
      (ftp_worker_step cfg st request now).replies =
        [ftp_error (mkReplyHeader request) FTP_ERROR.InvalidSession cfg.errno] ∧
      (ftp_error (mkReplyHeader request) FTP_ERROR.InvalidSession cfg.errno).opcode =
        FTP_OP.Nack ∧
      (ftp_error (mkReplyHeader request) FTP_ERROR.InvalidSession cfg.errno).data.getD 0 1 =
        errCode FTP_ERROR.InvalidSession ∧
      (ftp_worker_step cfg st request now).acts = [] ∧
      (ftp_worker_step cfg st request now).state.fd = st.fd ∧
      (ftp_worker_step cfg st request now).state.mode = st.mode ∧
      (ftp_worker_step cfg st request now).state.current_session = st.current_session) ∧
    ((st.fd.isSome ∧ (request.session : Int) ≠ st.current_session ∧
        ¬(request.opcode = FTP_OP.TerminateSession ∨ request.opcode = FTP_OP.ResetSessions) ∧
        ¬ sub32 now st.last_send_ms < 3000) →
      ftp_worker_step cfg st request now =
        ftp_dispatch cfg { st with fd := none, current_session := -1 }
          (mkReplyHeader request) request now [FsAct.closeF]) := by
  unfold ftp_worker_step
  rw [if_neg hre, if_neg (by omega : ¬ 239 < request.size)]
  unfold sessionCheck
  refine ⟨?_, ?_, ?_⟩
  · rintro ⟨hs, hop⟩
    rw [if_pos ⟨hs, hop⟩]
    exact ⟨rfl, rfl, rfl, rfl, rfl⟩
  · rintro ⟨hfd, hs, hop, ht⟩
    rw [if_neg (by tauto), if_pos ⟨hfd, hs, ht⟩]
    exact ⟨rfl, rfl, rfl, rfl, rfl, rfl, rfl⟩
  · rintro ⟨hfd, hs, hop, ht⟩
    rw [if_neg (by tauto), if_neg (by tauto), if_pos ⟨hfd, hs, ht⟩]

/-- Witness for C2: terminating a foreign session on the initial state
acks without touching state. -/
theorem session_checks_witness :
    (ftp_worker_step cfg0 initFtpState reqC2 0).replies =
      [{ mkReplyHeader reqC2 with opcode := FTP_OP.Ack }] ∧
    (ftp_worker_step cfg0 initFtpState reqC2 0).acts = [] ∧
    (ftp_worker_step cfg0 initFtpState reqC2 0).state.fd = initFtpState.fd ∧
    (ftp_worker_step cfg0 initFtpState reqC2 0).state.current_session =
      initFtpState.current_session := by
  have h := (session_checks_spec cfg0 initFtpState reqC2 0 (by decide) (by decide)).1
    (by exact ⟨by decide, Or.inl rfl⟩)
  exact ⟨h.1, h.2.1, h.2.2.1, h.2.2.2.2⟩

theorem ftp_error_hdr_props (request : PendingFtp) (e : FTP_ERROR) (v : Nat)
    (h : e ≠ FTP_ERROR.FailErrno) :
    (ftp_error (mkReplyHeader request) e v).opcode = FTP_OP.Nack ∧
    (ftp_error (mkReplyHeader request) e v).data.getD 0 1 = errCode e ∧
    (ftp_error (mkReplyHeader request) e v).size = 1 := by
  unfold ftp_error
  rw [if_neg h]
  exact ⟨rfl, rfl, rfl⟩

/-- C10: fixed error codes for failed preconditions on the open file:
`ReadFile`, `WriteFile` and `BurstReadFile` with no open file nack
`FileNotFound`; `OpenFileRO` (when the idle reclaim does not fire),
`OpenFileWO` and `CreateFile` with a file already open nack `Fail`. -/
theorem precondition_error_codes_spec (cfg : FtpConfig) (st : FtpState)
    (request : PendingFtp) (now : Nat)
    (hre : ¬ retransmitMatch st.lastReply request) (hsz : request.size ≤ 239) :
    ((request.opcode = FTP_OP.ReadFile ∨ request.opcode = FTP_OP.WriteFile ∨
        request.opcode = FTP_OP.BurstReadFile) → st.fd = none →
      (ftp_worker_step cfg st request now).replies =
        [ftp_error (mkReplyHeader request) FTP_ERROR.FileNotFound cfg.errno] ∧
      (ftp_error (mkReplyHeader request) FTP_ERROR.FileNotFound cfg.errno).opcode =
        FTP_OP.Nack ∧
      (ftp_error (mkReplyHeader request) FTP_ERROR.FileNotFound cfg.errno).data.getD 0 1 =
        errCode FTP_ERROR.FileNotFound ∧
      (ftp_error (mkReplyHeader request) FTP_ERROR.FileNotFound cfg.errno).size = 1) ∧
    (((request.opcode = FTP_OP.OpenFileRO ∧ ¬ 3000 < sub32 now st.last_send_ms) ∨
        request.opcode = FTP_OP.OpenFileWO ∨ request.opcode = FTP_OP.CreateFile) →
      st.fd.isSome → (request.session : Int) = st.current_session →
      (ftp_worker_step cfg st request now).replies =
        [ftp_error (mkReplyHeader request) FTP_ERROR.Fail cfg.errno] ∧
      (ftp_error (mkReplyHeader request) FTP_ERROR.Fail cfg.errno).opcode = FTP_OP.Nack ∧
      (ftp_error (mkReplyHeader request) FTP_ERROR.Fail cfg.errno).data.getD 0 1 =
        errCode FTP_ERROR.Fail ∧
      (ftp_error (mkReplyHeader request) FTP_ERROR.Fail cfg.errno).size = 1) := by
  unfold ftp_worker_step
  rw [if_neg hre, if_neg (by omega : ¬ 239 < request.size)]
  unfold sessionCheck
  constructor
  · intro hop hfd
    have hp := ftp_error_hdr_props request FTP_ERROR.FileNotFound cfg.errno (by decide)
    refine ⟨?_, hp.1, hp.2.1, hp.2.2⟩
    rcases hop with h1 | h1 | h1 <;>
      rw [if_neg (by simp [h1]), if_neg (by simp [hfd]), if_neg (by simp [hfd])] <;>
      simp [ftp_dispatch, h1, hfd, finishPush_replies]
  · intro hop hfd hsess
    have hp := ftp_error_hdr_props request FTP_ERROR.Fail cfg.errno (by decide)
    refine ⟨?_, hp.1, hp.2.1, hp.2.2⟩
    rw [if_neg (by simp [hsess]), if_neg (by simp [hsess]), if_neg (by simp [hsess])]
    rcases hop with ⟨h1, hrc⟩ | h1 | h1
    · simp [ftp_dispatch, openRO_body, h1, hrc, hfd, finishPush_replies]
    · simp only [ftp_dispatch, h1]
      rw [if_pos hfd]
      exact finishPush_replies _ _ _ _
    · simp only [ftp_dispatch, h1]
      rw [if_pos hfd]
      exact finishPush_replies _ _ _ _

theorem seqOk_single (r reply : PendingFtp) (hseq : reply.seq_number < 2 ^ 16)
    (hs : r.seq_number = reply.seq_number) (ho : r.req_opcode = reply.req_opcode) :
    SeqOk reply [r] := by
  intro j hj
  have hj0 : j = 0 := by simpa using hj
  subst hj0
  simpa [hs, ho] using (Nat.mod_eq_of_lt hseq).symm

theorem burstLoop_seq (cfg : FtpConfig) (now maxRead reqOff : Nat) :
    ∀ fuel i f reply st, reply.seq_number < 2 ^ 16 →
      ((∀ j (hj : j < (burstLoop cfg now maxRead reqOff i fuel f reply st).emitted.length),
        (((burstLoop cfg now maxRead reqOff i fuel f reply st).emitted.get ⟨j, hj⟩).seq_number
            = (reply.seq_number + j) % 2 ^ 16 ∧
         ((burstLoop cfg now maxRead reqOff i fuel f reply st).emitted.get ⟨j, hj⟩).req_opcode
            = reply.req_opcode)) ∧
      (burstLoop cfg now maxRead reqOff i fuel f reply st).reply.seq_number
          = (reply.seq_number +
             (burstLoop cfg now maxRead reqOff i fuel f reply st).emitted.length) % 2 ^ 16 ∧
      (burstLoop cfg now maxRead reqOff i fuel f reply st).reply.req_opcode
          = reply.req_opcode) := by
  intro fuel
  induction fuel with
  | zero =>
    intro i f reply st h
    rw [burstLoop_zero]
    refine ⟨fun j hj => by simp at hj, ?_, rfl⟩
    simpa using (Nat.mod_eq_of_lt h).symm
  | succ fuel ih =>
    intro i f reply st h
    by_cases hrd : cfg.readOk f.pos (min 239 maxRead) = true
    case neg =>
      have hrd' : cfg.readOk f.pos (min 239 maxRead) = false := by
        revert hrd
        cases cfg.readOk f.pos (min 239 maxRead) <;> simp
      rw [burstLoop_succ_fail cfg now maxRead reqOff i fuel f reply st hrd']
      refine ⟨fun j hj => by simp at hj, ?_, ?_⟩
      · rw [ftp_error_seq]
        simpa using (Nat.mod_eq_of_lt h).symm
      · rw [ftp_error_req_opcode]
    case pos =>
    by_cases hn : (burstRead f maxRead).length = 0
    · rw [burstLoop_succ_eof cfg now maxRead reqOff i fuel f reply st hrd hn]
      refine ⟨fun j hj => by simp at hj, ?_, ?_⟩
      · rw [ftp_error_seq]
        simpa using (Nat.mod_eq_of_lt h).symm
      · rw [ftp_error_req_opcode]
    · rw [burstLoop_succ_pos cfg now maxRead reqOff i fuel f reply st hrd hn]
      have hsentseq : (burstSent reply (burstRead f maxRead) maxRead reqOff i).seq_number
          = reply.seq_number := rfl
      have hsentop : (burstSent reply (burstRead f maxRead) maxRead reqOff i).req_opcode
          = reply.req_opcode := rfl
      have hns : (burstNext (burstSent reply (burstRead f maxRead) maxRead reqOff i)
          (burstRead f maxRead).length maxRead).seq_number
          = (reply.seq_number + 1) % 2 ^ 16 := by
        unfold burstNext
        split <;> rfl
      have hno : (burstNext (burstSent reply (burstRead f maxRead) maxRead reqOff i)
          (burstRead f maxRead).length maxRead).req_opcode = reply.req_opcode := by
        unfold burstNext
        split <;> rfl
      have hnlt : (burstNext (burstSent reply (burstRead f maxRead) maxRead reqOff i)
          (burstRead f maxRead).length maxRead).seq_number < 2 ^ 16 := by
        rw [hns]; exact Nat.mod_lt _ (by norm_num)
      obtain ⟨ihj, ihs, iho⟩ := ih (i + 1)
        { f with pos := f.pos + (burstRead f maxRead).length }
        (burstNext (burstSent reply (burstRead f maxRead) maxRead reqOff i)
          (burstRead f maxRead).length maxRead)
        (pushState st (burstSent reply (burstRead f maxRead) maxRead reqOff i) now) hnlt
      refine ⟨?_, ?_, ?_⟩
      · intro j hj
        match j with
        | 0 =>
          refine ⟨?_, hsentop⟩
          rw [List.get]
          simp only [hsentseq]
          simpa using (Nat.mod_eq_of_lt h).symm
        | Nat.succ j =>
          simp only [List.length_cons] at hj
          have hj' := Nat.lt_of_succ_lt_succ hj
          obtain ⟨h1, h2⟩ := ihj j hj'
          rw [List.get]
          refine ⟨?_, ?_⟩
          · rw [h1, hns, Nat.mod_add_mod]
            congr 1
            omega
          · rw [h2, hno]
      · simp only [BurstRes.reply, List.length_cons]
        rw [ihs, hns, Nat.mod_add_mod]
        congr 1
        omega
      · rw [iho, hno]

theorem ftp_list_dir_seq (cfg : FtpConfig) (request reply : PendingFtp) :
    (ftp_list_dir cfg request reply).1.seq_number = reply.seq_number ∧
    (ftp_list_dir cfg request reply).1.req_opcode = reply.req_opcode := by
  constructor
  all_goals
    unfold ftp_list_dir
    dsimp only
    repeat' split
    all_goals
      first
        | rfl
        | exact ftp_error_seq _ _ _
        | exact ftp_error_req_opcode _ _ _

theorem seqOk_append_nack (reply : PendingFtp) (e : List PendingFtp) (r : PendingFtp)
    (he : SeqOk reply e)
    (hs : r.seq_number = (reply.seq_number + e.length) % 2 ^ 16)
    (ho : r.req_opcode = reply.req_opcode) :
    SeqOk reply (e ++ [r]) := by
  intro j hj
  simp only [List.get_eq_getElem] at he ⊢
  simp only [List.length_append, List.length_singleton] at hj
  rcases Nat.lt_or_ge j e.length with hlt | hge
  · rw [List.getElem_append_left hlt]
    exact he j hlt
  · have hj0 : j = e.length := by omega
    rw [List.getElem_append_right hge]
    subst hj0
    simpa using ⟨hs, ho⟩

theorem dispatch_replies_seq (cfg : FtpConfig) (st : FtpState) (reply request : PendingFtp)
    (now : Nat) (acts0 : List FsAct) (h : reply.seq_number < 2 ^ 16) :
    SeqOk reply (ftp_dispatch cfg st reply request now acts0).replies := by
  cases hop : request.opcode <;> simp only [ftp_dispatch, openRO_body, hop]
  case Ack => intro j hj; simp at hj
  case Nack => intro j hj; simp at hj
  case BurstReadFile =>
    cases hfd : st.fd with
    | none =>
      simp only [finishPush_replies]
      exact seqOk_single _ _ h (ftp_error_seq _ _ _) (ftp_error_req_opcode _ _ _)
    | some f =>
      dsimp only
      by_cases hmode : st.mode ≠ FTP_FILE_MODE.Read
      · rw [if_pos hmode]
        simp only [finishPush_replies]
        exact seqOk_single _ _ h (ftp_error_seq _ _ _) (ftp_error_req_opcode _ _ _)
      · rw [if_neg hmode]
        by_cases hsk : cfg.seekOk request.offset = true
        case neg =>
          rw [if_neg hsk]
          simp only [finishPush_replies]
          exact seqOk_single _ _ h (ftp_error_seq _ _ _) (ftp_error_req_opcode _ _ _)
        case pos =>
        rw [if_pos hsk]
        obtain ⟨bj, bs, bo⟩ := burstLoop_seq cfg now
          (if request.size = 0 then 239 else request.size) request.offset 500 0
          { f with pos := request.offset } reply st h
        by_cases hnk : (burstLoop cfg now (if request.size = 0 then 239 else request.size)
            request.offset 0 500 { f with pos := request.offset } reply st).reply.opcode
            = FTP_OP.Nack
        · rw [if_pos hnk]
          exact seqOk_append_nack reply _ _ bj bs bo
        · rw [if_neg hnk]
          exact bj
  all_goals
    repeat' split
    all_goals
      simp only [finishPush_replies]
      refine seqOk_single _ _ h ?_ ?_ <;>
        first
          | rfl
          | exact ftp_error_seq _ _ _
          | exact ftp_error_req_opcode _ _ _
          | exact (ftp_list_dir_seq cfg request reply).1
          | exact (ftp_list_dir_seq cfg request reply).2

theorem seqOk_to_step (st : FtpState) (request : PendingFtp) (rs : List PendingFtp)
    (hs : SeqOk (mkReplyHeader request) rs) : StepSeqOk st request rs := by
  intro j hj
  obtain ⟨h1, h2⟩ := hs j hj
  refine ⟨?_, fun _ => h2⟩
  rw [h1]
  show ((request.seq_number + 1) % 2 ^ 16 + j) % 2 ^ 16 = (request.seq_number + 1 + j) % 2 ^ 16
  exact Nat.mod_add_mod _ _ _

/-- C4 (amended): a reply's `req_opcode` always echoes the dispatched
request's opcode, and the `j`-th reply pushed while serving one request
carries `seq_number = request.seq_number + 1 + j (mod 2^16)`.  Every
operation except `BurstReadFile` pushes at most one reply (`j = 0`), so
its reply carries `request.seq_number + 1`; within a burst stream the
sequence number advances by one per packet.  A retransmit fast-path
reply is the cached reply, whose sequence number equals
`request.seq_number + 1` by the match condition. -/
theorem reply_seq_spec (cfg : FtpConfig) (st : FtpState) (request : PendingFtp) (now : Nat)
    (hlt : st.lastReply.seq_number < 2 ^ 16) :
    ∀ j (hj : j < (ftp_worker_step cfg st request now).replies.length),
      (((ftp_worker_step cfg st request now).replies.get ⟨j, hj⟩).seq_number
          = (request.seq_number + 1 + j) % 2 ^ 16) ∧
      (¬ retransmitMatch st.lastReply request →
        ((ftp_worker_step cfg st request now).replies.get ⟨j, hj⟩).req_opcode
          = request.opcode) := by
  show StepSeqOk st request (ftp_worker_step cfg st request now).replies
  have hhlt : (mkReplyHeader request).seq_number < 2 ^ 16 := Nat.mod_lt _ (by norm_num)
  by_cases hre : retransmitMatch st.lastReply request
  · unfold ftp_worker_step
    rw [if_pos hre]
    intro j hj
    have hj0 : j = 0 := by simpa using hj
    subst hj0
    refine ⟨?_, fun hc => absurd hre hc⟩
    have h4 := hre.2.2.2
    show st.lastReply.seq_number = (request.seq_number + 1 + 0) % 2 ^ 16
    omega
  · unfold ftp_worker_step
    rw [if_neg hre]
    dsimp only
    by_cases hsz : 239 < request.size
    · rw [if_pos hsz]
      refine seqOk_to_step st request _ ?_
      rw [finishPush_replies]
      exact seqOk_single _ _ hhlt (ftp_error_seq _ _ _) (ftp_error_req_opcode _ _ _)
    · rw [if_neg hsz]
      unfold sessionCheck
      split
      · refine seqOk_to_step st request _ ?_
        rw [finishPush_replies]
        exact seqOk_single _ _ hhlt rfl rfl
      · split
        · refine seqOk_to_step st request _ ?_
          rw [finishPush_replies]
          exact seqOk_single _ _ hhlt (ftp_error_seq _ _ _) (ftp_error_req_opcode _ _ _)
        · split
          · exact seqOk_to_step st request _ (dispatch_replies_seq cfg _ _ request now _ hhlt)
          · exact seqOk_to_step st request _ (dispatch_replies_seq cfg _ _ request now _ hhlt)

theorem set0_getD (l : List Nat) (c : Nat) (h : 0 < l.length) :
    (l.set 0 c).getD 0 1 = c := by
  cases l
  · simp at h
  · simp

theorem ftp_error_size_one (r : PendingFtp) (e : FTP_ERROR) (v : Nat)
    (h : e ≠ FTP_ERROR.FailErrno) : (ftp_error r e v).size = 1 := by
  unfold ftp_error
  rw [if_neg h]

theorem ftp_error_data0 (r : PendingFtp) (e : FTP_ERROR) (v : Nat)
    (h : e ≠ FTP_ERROR.FailErrno) (hl : 0 < r.data.length) :
    (ftp_error r e v).data.getD 0 1 = errCode e := by
  unfold ftp_error
  rw [if_neg h]
  exact set0_getD _ _ hl

theorem ftp_error_failerrno_data0 (r : PendingFtp) (v : Nat) :
    (ftp_error r FTP_ERROR.FailErrno v).data.getD 0 1 ≠ errCode FTP_ERROR.EndOfFile := by
  unfold ftp_error
  rw [if_pos rfl]
  cases hd : r.data with
  | nil => split <;> (try split) <;> simp [hd, errCode]
  | cons b bs => split <;> (try split) <;> simp [hd, errCode]

theorem burstStepOk_failerrno (maxRead reqOff L : Nat) (r : PendingFtp) (v : Nat) :
    BurstStepOk maxRead reqOff L [ftp_error r FTP_ERROR.FailErrno v] := by
  refine ⟨by simp, ?_⟩
  intro j hj
  have hj0 : j = 0 := by simpa using hj
  subst hj0
  have hopc : (([ftp_error r FTP_ERROR.FailErrno v].get ⟨0, hj⟩)).opcode = FTP_OP.Nack :=
    ftp_error_opcode _ _ _
  refine ⟨Or.inr hopc, fun hc => ?_,
    fun _ => ⟨by simp, fun hd6 => absurd hd6 (ftp_error_failerrno_data0 r v)⟩⟩
  rw [hopc] at hc
  exact FTP_OP.noConfusion hc

theorem burstRead_length (f : OpenFile) (maxRead : Nat) (h : maxRead ≤ 239) :
    (burstRead f maxRead).length = min maxRead (f.content.length - f.pos) := by
  unfold burstRead
  rw [List.length_take, List.length_drop]
  omega

theorem burstSent_opcode (reply : PendingFtp) (chunk : List Nat) (maxRead reqOff i : Nat) :
    (burstSent reply chunk maxRead reqOff i).opcode = FTP_OP.Ack := rfl

theorem burstNext_opcode (sent : PendingFtp) (n maxRead : Nat) :
    (burstNext sent n maxRead).opcode = sent.opcode := by
  unfold burstNext
  split <;> rfl

theorem burstLoop_payload (cfg : FtpConfig) (now maxRead reqOff L : Nat)
    (hm1 : 1 ≤ maxRead) (hm2 : maxRead ≤ 239) :
    ∀ fuel i (f : OpenFile) (reply : PendingFtp) (st : FtpState),
      f.content.length = L → i + fuel = 500 →
      (f.pos = reqOff + i * maxRead ∨ (f.pos = L ∧ L ≤ reqOff + i * maxRead)) →
      reply.opcode ≠ FTP_OP.Nack →
      BurstOut cfg maxRead reqOff L i fuel (burstLoop cfg now maxRead reqOff i fuel f reply st) := by
  intro fuel
  induction fuel with
  | zero =>
    intro i f reply st hL hfi hpos hnk
    rw [burstLoop_zero]
    exact ⟨Nat.le_refl 0, fun j hj => by simp at hj,
      fun h => absurd h hnk, fun _ => rfl⟩
  | succ fuel ih =>
    intro i f reply st hL hfi hpos hnk
    have hn0 : (burstRead f maxRead).length = min maxRead (L - f.pos) := by
      rw [burstRead_length f maxRead hm2, hL]
    by_cases hrd : cfg.readOk f.pos (min 239 maxRead) = true
    case neg =>
      have hrd' : cfg.readOk f.pos (min 239 maxRead) = false := by
        revert hrd
        cases cfg.readOk f.pos (min 239 maxRead) <;> simp
      rw [burstLoop_succ_fail cfg now maxRead reqOff i fuel f reply st hrd']
      refine ⟨by simp, fun j hj => by simp at hj, ?_, ?_⟩
      · intro _
        exact ⟨by simp, Or.inr ⟨hrd', ftp_error_failerrno_data0 reply cfg.errno⟩⟩
      · intro h
        exact absurd (ftp_error_opcode _ _ _) h
    case pos =>
    by_cases hz : (burstRead f maxRead).length = 0
    · rw [burstLoop_succ_eof cfg now maxRead reqOff i fuel f reply st hrd hz]
      have hce : burstRead f maxRead = [] := List.length_eq_zero.mp hz
      refine ⟨by simp, fun j hj => by simp at hj, ?_, ?_⟩
      · intro _
        refine ⟨by simp, Or.inl ⟨?_, ?_, ?_, ?_⟩⟩
        · show cfg.readOk (f.pos + (burstRead f maxRead).length) (min 239 maxRead) = true
          rw [hz, Nat.add_zero]
          exact hrd
        · show burstN maxRead reqOff L i = 0
          unfold burstN
          rcases hpos with h | ⟨h1, h2⟩ <;> omega
        · refine ftp_error_data0 _ _ _ (by decide) ?_
          show 0 < (burstRead f maxRead ++
            List.replicate (239 - (burstRead f maxRead).length) 0).length
          rw [List.length_append, List.length_replicate]
          omega
        · exact ftp_error_size_one _ _ _ (by decide)
      · intro h
        exact absurd (ftp_error_opcode _ _ _) h
    · rw [burstLoop_succ_pos cfg now maxRead reqOff i fuel f reply st hrd hz]
      have hfp : f.pos = reqOff + i * maxRead := by
        rcases hpos with h | ⟨h1, h2⟩
        · exact h
        · exfalso; apply hz; omega
      have hn0v : (burstRead f maxRead).length = burstN maxRead reqOff L i := by
        rw [hn0, hfp]; rfl
      have hmul : (i + 1) * maxRead = i * maxRead + maxRead := Nat.succ_mul i maxRead
      have hpos' : ({ f with pos := f.pos + (burstRead f maxRead).length } : OpenFile).pos
            = reqOff + (i + 1) * maxRead ∨
          (({ f with pos := f.pos + (burstRead f maxRead).length } : OpenFile).pos = L ∧
            L ≤ reqOff + (i + 1) * maxRead) := by
        show f.pos + (burstRead f maxRead).length = reqOff + (i + 1) * maxRead ∨
          (f.pos + (burstRead f maxRead).length = L ∧ L ≤ reqOff + (i + 1) * maxRead)
        by_cases hfull : (burstRead f maxRead).length = maxRead
        · left; omega
        · right; constructor <;> omega
      have hnp : (burstNext (burstSent reply (burstRead f maxRead) maxRead reqOff i)
          (burstRead f maxRead).length maxRead).opcode ≠ FTP_OP.Nack := by
        rw [burstNext_opcode, burstSent_opcode]
        decide
      obtain ⟨ih1, ih2, ih3, ih4⟩ := ih (i + 1)
        { f with pos := f.pos + (burstRead f maxRead).length }
        (burstNext (burstSent reply (burstRead f maxRead) maxRead reqOff i)
          (burstRead f maxRead).length maxRead)
        (pushState st (burstSent reply (burstRead f maxRead) maxRead reqOff i) now)
        hL (by omega) hpos' hnp
      refine ⟨?_, ?_, ?_, ?_⟩
      · simpa using Nat.succ_le_succ ih1
      · intro j hj
        match j with
        | 0 =>
          refine ⟨rfl, by simp [burstSent], ?_, ?_, ?_⟩
          · show (burstRead f maxRead).length = burstN maxRead reqOff L i
            exact hn0v
          · show 0 < burstN maxRead reqOff L i
            rw [← hn0v]
            exact Nat.pos_of_ne_zero hz
          · show (decide ((burstRead f maxRead).length < maxRead) || decide (i = 499)) = true
              ↔ (burstN maxRead reqOff L i < maxRead ∨ i + 0 = 499)
            rw [← hn0v]
            simp
        | Nat.succ j =>
          simp only [List.length_cons] at hj
          have hj' := Nat.lt_of_succ_lt_succ hj
          obtain ⟨p1, p2, p3, p4, p5⟩ := ih2 j hj'
          have hidx : i + 1 + j = i + (j + 1) := by omega
          rw [hidx] at p2 p3 p4 p5
          simp only [List.get_eq_getElem, List.getElem_cons_succ] at p1 p2 p3 p4 p5 ⊢
          exact ⟨p1, p2, p3, p4, p5⟩
      · intro h
        obtain ⟨q1, q2⟩ := ih3 h
        refine ⟨by simp; omega, ?_⟩
        rcases q2 with ⟨r1, r2, r3, r4⟩ | ⟨r1, r2⟩
        · refine Or.inl ⟨r1, ?_, r3, r4⟩
          have hidx : i + 1 + (burstLoop cfg now maxRead reqOff (i + 1) fuel
              { f with pos := f.pos + (burstRead f maxRead).length }
              (burstNext (burstSent reply (burstRead f maxRead) maxRead reqOff i)
                (burstRead f maxRead).length maxRead)
              (pushState st (burstSent reply (burstRead f maxRead) maxRead reqOff i)
                now)).emitted.length = i + ((burstLoop cfg now maxRead reqOff (i + 1) fuel
              { f with pos := f.pos + (burstRead f maxRead).length }
              (burstNext (burstSent reply (burstRead f maxRead) maxRead reqOff i)
                (burstRead f maxRead).length maxRead)
              (pushState st (burstSent reply (burstRead f maxRead) maxRead reqOff i)
                now)).emitted.length + 1) := by omega
          rw [hidx] at r2
          simpa using r2
        · exact Or.inr ⟨r1, r2⟩
      · intro h
        have := ih4 h
        simp [this]

theorem burstOut_to_step_nack (cfg : FtpConfig) (maxRead reqOff L : Nat) (res : BurstRes)
    (hb : BurstOut cfg maxRead reqOff L 0 500 res) (hnk : res.reply.opcode = FTP_OP.Nack) :
    BurstStepOk maxRead reqOff L (res.emitted ++ [res.reply]) := by
  obtain ⟨h1, h2, h3, h4⟩ := hb
  obtain ⟨q1, qd⟩ := h3 hnk
  constructor
  · simp only [List.length_append, List.length_singleton]
    omega
  · intro j hj
    simp only [List.length_append, List.length_singleton] at hj
    simp only [List.get_eq_getElem]
    rcases Nat.lt_or_ge j res.emitted.length with hlt | hge
    · rw [List.getElem_append_left hlt]
      obtain ⟨p1, p2, p3, p4, p5⟩ := h2 j hlt
      simp only [List.get_eq_getElem] at p1 p2 p3 p4 p5
      rw [Nat.zero_add] at p2 p3 p4 p5
      refine ⟨Or.inl p1, fun _ => ⟨p2, p3, p4, p5⟩, fun hc => ?_⟩
      rw [p1] at hc
      exact FTP_OP.noConfusion hc
    · have hj0 : j = res.emitted.length := by omega
      rw [List.getElem_append_right hge]
      subst hj0
      simp only [Nat.sub_self, List.getElem_singleton]
      refine ⟨Or.inr hnk, fun hc => ?_, fun _ => ⟨?_, fun hd6 => ?_⟩⟩
      · rw [hnk] at hc
        exact FTP_OP.noConfusion hc
      · simp only [List.length_append, List.length_singleton]
        omega
      · rcases qd with ⟨-, hbn, -, hs1⟩ | ⟨-, hne⟩
        · rw [Nat.zero_add] at hbn
          exact ⟨hs1, hbn⟩
        · exact absurd hd6 hne

theorem burstOut_to_step_ack (cfg : FtpConfig) (maxRead reqOff L : Nat) (res : BurstRes)
    (hb : BurstOut cfg maxRead reqOff L 0 500 res) (_hnk : ¬ res.reply.opcode = FTP_OP.Nack) :
    BurstStepOk maxRead reqOff L res.emitted := by
  obtain ⟨h1, h2, h3, h4⟩ := hb
  constructor
  · exact h1
  · intro j hj
    obtain ⟨p1, p2, p3, p4, p5⟩ := h2 j hj
    rw [Nat.zero_add] at p2 p3 p4 p5
    refine ⟨Or.inl p1, fun _ => ⟨p2, p3, p4, p5⟩, fun hc => ?_⟩
    rw [p1] at hc
    exact FTP_OP.noConfusion hc

/-- C5: `BurstReadFile` with an open read-mode file: the effective chunk
size is 239 when `request.size` is 0 and `request.size` otherwise; at
most 500 replies are sent; the `j`-th ACK carries `offset =
request.offset + j * max_read` (u32), `size` equal to the bytes the
`j`-th read returned, and `burst_complete` exactly on a short read or
the 500th packet; a terminating Nack is the final reply: a failed seek
(GCS_FTP.cpp:489-492) nacks `FailErrno` with no read at all, and
otherwise the Nack is the `EndOfFile` nack of a zero-byte read when the
read at the final file position succeeded, or a `FailErrno` nack (never
carrying the `EndOfFile` code) when that read failed
(GCS_FTP.cpp:517-520). -/
theorem burst_read_spec (cfg : FtpConfig) (st : FtpState) (request : PendingFtp) (now : Nat)
    (f : OpenFile)
    (hre : ¬ retransmitMatch st.lastReply request)
    (hsz : request.size ≤ 239)
    (hop : request.opcode = FTP_OP.BurstReadFile)
    (hfd : st.fd = some f)
    (hmode : st.mode = FTP_FILE_MODE.Read)
    (hsess : (request.session : Int) = st.current_session) :
    ((request.size = 0 → (if request.size = 0 then 239 else request.size) = 239) ∧
     (request.size ≠ 0 → (if request.size = 0 then 239 else request.size) = request.size)) ∧
    BurstStepOk (if request.size = 0 then 239 else request.size) request.offset
      f.content.length (ftp_worker_step cfg st request now).replies ∧
    (cfg.seekOk request.offset = false →
      (ftp_worker_step cfg st request now).replies =
        [ftp_error (mkReplyHeader request) FTP_ERROR.FailErrno cfg.errno]) ∧
    (∀ g, (ftp_worker_step cfg st request now).state.fd = some g →
      ∀ j (hj : j < (ftp_worker_step cfg st request now).replies.length),
        ((ftp_worker_step cfg st request now).replies.get ⟨j, hj⟩).opcode = FTP_OP.Nack →
        cfg.seekOk request.offset = true →
        ((cfg.readOk g.pos (min 239 (if request.size = 0 then 239 else request.size)) = true ∧
          ((ftp_worker_step cfg st request now).replies.get ⟨j, hj⟩).data.getD 0 1
            = errCode FTP_ERROR.EndOfFile) ∨
         (cfg.readOk g.pos (min 239 (if request.size = 0 then 239 else request.size)) = false ∧
          ((ftp_worker_step cfg st request now).replies.get ⟨j, hj⟩).data.getD 0 1
            ≠ errCode FTP_ERROR.EndOfFile))) := by
  have hm1 : 1 ≤ (if request.size = 0 then 239 else request.size) := by
    split <;> omega
  have hm2 : (if request.size = 0 then 239 else request.size) ≤ 239 := by
    split <;> omega
  have hchain : ∀ out : StepOut,
      (if cfg.seekOk request.offset then
        (if (burstLoop cfg now (if request.size = 0 then 239 else request.size)
            request.offset 0 500 { f with pos := request.offset }
            (mkReplyHeader request) st).reply.opcode = FTP_OP.Nack then
          { state := { pushState { (burstLoop cfg now
                (if request.size = 0 then 239 else request.size) request.offset 0 500
                { f with pos := request.offset } (mkReplyHeader request) st).st with
                fd := some (burstLoop cfg now
                  (if request.size = 0 then 239 else request.size) request.offset 0 500
                  { f with pos := request.offset } (mkReplyHeader request) st).f }
              (burstLoop cfg now (if request.size = 0 then 239 else request.size)
                request.offset 0 500 { f with pos := request.offset }
                (mkReplyHeader request) st).reply now with
              lastReply := (burstLoop cfg now
                (if request.size = 0 then 239 else request.size) request.offset 0 500
                { f with pos := request.offset } (mkReplyHeader request) st).reply },
            replies := (burstLoop cfg now (if request.size = 0 then 239 else request.size)
                request.offset 0 500 { f with pos := request.offset }
                (mkReplyHeader request) st).emitted ++
              [(burstLoop cfg now (if request.size = 0 then 239 else request.size)
                request.offset 0 500 { f with pos := request.offset }
                (mkReplyHeader request) st).reply],
            acts := [] ++ FsAct.seekF request.offset :: (burstLoop cfg now
              (if request.size = 0 then 239 else request.size) request.offset 0 500
              { f with pos := request.offset } (mkReplyHeader request) st).acts }
        else
          { state := { { (burstLoop cfg now
                (if request.size = 0 then 239 else request.size) request.offset 0 500
                { f with pos := request.offset } (mkReplyHeader request) st).st with
                fd := some (burstLoop cfg now
                  (if request.size = 0 then 239 else request.size) request.offset 0 500
                  { f with pos := request.offset } (mkReplyHeader request) st).f } with
              lastReply := (burstLoop cfg now
                (if request.size = 0 then 239 else request.size) request.offset 0 500
                { f with pos := request.offset } (mkReplyHeader request) st).reply },
            replies := (burstLoop cfg now (if request.size = 0 then 239 else request.size)
              request.offset 0 500 { f with pos := request.offset }
              (mkReplyHeader request) st).emitted,
            acts := [] ++ FsAct.seekF request.offset :: (burstLoop cfg now
              (if request.size = 0 then 239 else request.size) request.offset 0 500
              { f with pos := request.offset } (mkReplyHeader request) st).acts })
      else
        finishPush st (ftp_error (mkReplyHeader request) FTP_ERROR.FailErrno cfg.errno) now
          ([] ++ [FsAct.seekF request.offset])) = out →
      ftp_worker_step cfg st request now = out := by
    intro out hout
    unfold ftp_worker_step
    rw [if_neg hre, if_neg (by omega : ¬ 239 < request.size)]
    unfold sessionCheck
    rw [if_neg (show ¬((request.session : Int) ≠ st.current_session ∧
        (request.opcode = FTP_OP.TerminateSession ∨ request.opcode = FTP_OP.ResetSessions))
        from fun h => h.1 hsess)]
    rw [if_neg (show ¬(st.fd.isSome = true ∧ (request.session : Int) ≠ st.current_session ∧
        sub32 now st.last_send_ms < 3000) from fun h => h.2.1 hsess)]
    rw [if_neg (show ¬(st.fd.isSome = true ∧ (request.session : Int) ≠ st.current_session ∧
        ¬ sub32 now st.last_send_ms < 3000) from fun h => h.2.1 hsess)]
    simp only [ftp_dispatch, hop]
    rw [hfd]
    dsimp only
    rw [if_neg (show ¬(st.mode ≠ FTP_FILE_MODE.Read) from fun h => h hmode)]
    exact hout
  by_cases hsk : cfg.seekOk request.offset = true
  case neg =>
    have heq := hchain _ (by rw [if_neg hsk])
    rw [heq]
    refine ⟨⟨fun h => by rw [if_pos h], fun h => by rw [if_neg h]⟩, ?_, ?_, ?_⟩
    · simp only [finishPush_replies]
      exact burstStepOk_failerrno _ _ _ _ _
    · intro _
      exact finishPush_replies _ _ _ _
    · intro g hg j hj hnkj hsk2
      exact absurd hsk2 hsk
  case pos =>
  have hb : BurstOut cfg (if request.size = 0 then 239 else request.size) request.offset
      f.content.length 0 500 (burstLoop cfg now
        (if request.size = 0 then 239 else request.size) request.offset 0 500
        { f with pos := request.offset } (mkReplyHeader request) st) :=
    burstLoop_payload cfg now (if request.size = 0 then 239 else request.size)
      request.offset f.content.length hm1 hm2 500 0 { f with pos := request.offset }
      (mkReplyHeader request) st rfl rfl
      (Or.inl (by
        show request.offset
          = request.offset + 0 * (if request.size = 0 then 239 else request.size)
        omega))
      (by intro h; exact FTP_OP.noConfusion h)
  by_cases hnack : (burstLoop cfg now (if request.size = 0 then 239 else request.size)
      request.offset 0 500 { f with pos := request.offset }
      (mkReplyHeader request) st).reply.opcode = FTP_OP.Nack
  · have heq := hchain _ (by rw [if_pos hsk, if_pos hnack])
    rw [heq]
    set E := burstLoop cfg now (if request.size = 0 then 239 else request.size)
      request.offset 0 500 { f with pos := request.offset } (mkReplyHeader request) st with hE
    refine ⟨⟨fun h => by rw [if_pos h], fun h => by rw [if_neg h]⟩, ?_, ?_, ?_⟩
    · exact burstOut_to_step_nack cfg _ _ _ _ hb hnack
    · intro hskf
      rw [hskf] at hsk
      exact absurd hsk Bool.false_ne_true
    · intro g hg j hj hnkj hsk2
      obtain ⟨h1, h2, h3, h4⟩ := hb
      obtain ⟨q1, qd⟩ := h3 hnack
      have hgf : some E.f = some g := hg
      obtain rfl := Option.some.inj hgf
      have hj2 : j < (E.emitted ++ [E.reply]).length := hj
      have hnkj2 : ((E.emitted ++ [E.reply]).get ⟨j, hj2⟩).opcode = FTP_OP.Nack := hnkj
      show (cfg.readOk E.f.pos (min 239 (if request.size = 0 then 239 else request.size))
            = true ∧
          ((E.emitted ++ [E.reply]).get ⟨j, hj2⟩).data.getD 0 1 = errCode FTP_ERROR.EndOfFile) ∨
        (cfg.readOk E.f.pos (min 239 (if request.size = 0 then 239 else request.size))
            = false ∧
          ((E.emitted ++ [E.reply]).get ⟨j, hj2⟩).data.getD 0 1 ≠ errCode FTP_ERROR.EndOfFile)
      simp only [List.get_eq_getElem] at hnkj2 ⊢
      rcases Nat.lt_or_ge j E.emitted.length with hlt | hge
      · obtain ⟨p1, -⟩ := h2 j hlt
        simp only [List.get_eq_getElem] at p1
        rw [List.getElem_append_left hlt] at hnkj2
        rw [p1] at hnkj2
        exact FTP_OP.noConfusion hnkj2
      · have hj0 : j = E.emitted.length := by
          have hlen := hj2
          simp only [List.length_append, List.length_singleton] at hlen
          omega
        subst hj0
        rw [List.getElem_append_right hge] at hnkj2 ⊢
        simp only [Nat.sub_self, List.getElem_singleton] at hnkj2 ⊢
        rcases qd with ⟨r1, r2, r3, r4⟩ | ⟨r1, r2⟩
        · exact Or.inl ⟨r1, r3⟩
        · exact Or.inr ⟨r1, r2⟩
  · have heq := hchain _ (by rw [if_pos hsk, if_neg hnack])
    rw [heq]
    set E := burstLoop cfg now (if request.size = 0 then 239 else request.size)
      request.offset 0 500 { f with pos := request.offset } (mkReplyHeader request) st with hE
    refine ⟨⟨fun h => by rw [if_pos h], fun h => by rw [if_neg h]⟩, ?_, ?_, ?_⟩
    · exact burstOut_to_step_ack cfg _ _ _ _ hb hnack
    · intro hskf
      rw [hskf] at hsk
      exact absurd hsk Bool.false_ne_true
    · intro g hg j hj hnkj hsk2
      obtain ⟨h1, h2, h3, h4⟩ := hb
      have hj2 : j < E.emitted.length := hj
      obtain ⟨p1, -⟩ := h2 j hj2
      have hnkj2 : (E.emitted.get ⟨j, hj2⟩).opcode = FTP_OP.Nack := hnkj
      simp only [List.get_eq_getElem] at hnkj2 p1
      rw [p1] at hnkj2
      exact FTP_OP.noConfusion hnkj2

/-- Counterexample to C4 as stated: a burst read over a 2-byte file with
chunk size 1 produces three replies; the second reply answers the same
triggering request but carries `seq_number = request.seq_number + 2`,
not `request.seq_number + 1`. -/
theorem reply_seq_counterexample :
    (ftp_worker_step cfg0 stC4 reqC4 0).replies.length = 3 ∧
    ((ftp_worker_step cfg0 stC4 reqC4 0).replies.getD 1 default).req_opcode = reqC4.opcode ∧
    ((ftp_worker_step cfg0 stC4 reqC4 0).replies.getD 1 default).seq_number = 12 ∧
    (reqC4.seq_number + 1) % 2 ^ 16 = 11 := by decide

/-- Witness for C5: over a concrete 2-byte file the burst sends three
replies, the first an ACK of size 1, the last the `EndOfFile` Nack (the
read at the final position succeeds and returns no bytes); under an
oracle whose reads fail the same request yields a single `FailErrno`
Nack that does not carry the `EndOfFile` code. -/
theorem burst_read_witness :
    (ftp_worker_step cfg0 stC4 reqC4 0).replies.length ≤ 500 ∧
    ((ftp_worker_step cfg0 stC4 reqC4 0).replies.get ⟨0, by decide⟩).opcode = FTP_OP.Ack ∧
    ((ftp_worker_step cfg0 stC4 reqC4 0).replies.get ⟨2, by decide⟩).opcode = FTP_OP.Nack ∧
    ((ftp_worker_step cfg0 stC4 reqC4 0).replies.get ⟨2, by decide⟩).data.getD 0 1 =
      errCode FTP_ERROR.EndOfFile ∧
    (ftp_worker_step cfgC5f stC4 reqC4 0).replies.length = 1 ∧
    ((ftp_worker_step cfgC5f stC4 reqC4 0).replies.get ⟨0, by decide⟩).opcode = FTP_OP.Nack ∧
    ((ftp_worker_step cfgC5f stC4 reqC4 0).replies.get ⟨0, by decide⟩).data.getD 0 1 ≠
      errCode FTP_ERROR.EndOfFile := by
  have h := burst_read_spec cfg0 stC4 reqC4 0 ⟨[7, 8], 0⟩ (by decide) (by decide) rfl rfl rfl
    (by decide)
  have hf := burst_read_spec cfgC5f stC4 reqC4 0 ⟨[7, 8], 0⟩ (by decide) (by decide) rfl rfl rfl
    (by decide)
  have h2n : ((ftp_worker_step cfg0 stC4 reqC4 0).replies.get ⟨2, by decide⟩).opcode
      = FTP_OP.Nack := by decide
  have h0a : ((ftp_worker_step cfg0 stC4 reqC4 0).replies.get ⟨0, by decide⟩).opcode
      = FTP_OP.Ack := by decide
  have hgood := h.2.2.2 ⟨[7, 8], 2⟩ (by decide) 2 (by decide) h2n (by decide)
  have hfn : ((ftp_worker_step cfgC5f stC4 reqC4 0).replies.get ⟨0, by decide⟩).opcode
      = FTP_OP.Nack := by decide
  have hbad := hf.2.2.2 ⟨[7, 8], 0⟩ (by decide) 0 (by decide) hfn (by decide)
  refine ⟨h.2.1.1, h0a, h2n, ?_, by decide, hfn, ?_⟩
  · rcases hgood with ⟨-, hd⟩ | ⟨hr, -⟩
    · exact hd
    · exact absurd hr (by decide)
  · rcases hbad with ⟨hr, -⟩ | ⟨-, hd⟩
    · exact absurd hr (by decide)
    · exact hd

/-- Witness for C4 (amended): at the concrete burst input, the second
reply carries `request.seq_number + 1 + 1`. -/
theorem reply_seq_witness :
    ((ftp_worker_step cfg0 stC4 reqC4 0).replies.get ⟨1, by decide⟩).seq_number
      = (reqC4.seq_number + 1 + 1) % 2 ^ 16 := by
  exact (reply_seq_spec cfg0 stC4 reqC4 0 (by decide) 1 (by decide)).1

/-- Witness for C10: `ReadFile` on the initial (no open file) state
nacks `FileNotFound`. -/
theorem precondition_error_codes_witness :
    (ftp_worker_step cfg0 initFtpState reqC10 0).replies =
      [ftp_error (mkReplyHeader reqC10) FTP_ERROR.FileNotFound cfg0.errno] ∧
    (ftp_error (mkReplyHeader reqC10) FTP_ERROR.FileNotFound cfg0.errno).data.getD 0 1 = 9 := by
  have h := (precondition_error_codes_spec cfg0 initFtpState reqC10 0 (by decide)
    (by decide)).1 (Or.inl rfl) rfl
  exact ⟨h.1, h.2.2.1⟩

theorem countAfter_nil (c : Int) : countAfter c [] = c := rfl

theorem countAfter_cons (c : Int) (a : FsAct) (l : List FsAct) :
    countAfter c (a :: l) = countAfter (c + handleDelta a) l := rfl

theorem countAfter_append (c : Int) (l1 l2 : List FsAct) :
    countAfter c (l1 ++ l2) = countAfter (countAfter c l1) l2 := by
  unfold countAfter
  exact List.foldl_append _ _ _ _

theorem countAfter_zero (l : List FsAct) (hz : ∀ a ∈ l, handleDelta a = 0) :
    ∀ c, countAfter c l = c := by
  induction l with
  | nil => intro c; rfl
  | cons a l ih =>
    intro c
    rw [countAfter_cons, hz a (List.mem_cons_self a l), Int.add_zero]
    exact ih (fun b hb => hz b (List.mem_cons_of_mem a hb)) c

theorem goodTrace_append (c : Int) (l1 l2 : List FsAct) :
    goodTrace c l1 → goodTrace (countAfter c l1) l2 → goodTrace c (l1 ++ l2) := by
  induction l1 generalizing c with
  | nil =>
    intro h1 h2
    simpa using h2
  | cons a l ih =>
    intro h1 h2
    obtain ⟨p1, p2, p3⟩ := h1
    exact ⟨p1, p2, ih _ p3 (by rwa [← countAfter_cons])⟩

theorem goodTrace_zero (l : List FsAct) (hz : ∀ a ∈ l, handleDelta a = 0) :
    ∀ c, 0 ≤ c → c ≤ 1 → goodTrace c l := by
  induction l with
  | nil => intro c h0 h1; exact ⟨h0, h1⟩
  | cons a l ih =>
    intro c h0 h1
    refine ⟨h0, h1, ?_⟩
    rw [hz a (List.mem_cons_self a l), Int.add_zero]
    exact ih (fun b hb => hz b (List.mem_cons_of_mem a hb)) c h0 h1

theorem goodTrace_nil_of (c : Int) (h0 : 0 ≤ c) (h1 : c ≤ 1) : goodTrace c [] := ⟨h0, h1⟩

theorem burstLoop_state_acts (cfg : FtpConfig) (now maxRead reqOff : Nat) :
    ∀ fuel i (f : OpenFile) (reply : PendingFtp) (st : FtpState),
      ((burstLoop cfg now maxRead reqOff i fuel f reply st).st.fd = st.fd ∧
       (burstLoop cfg now maxRead reqOff i fuel f reply st).st.mode = st.mode ∧
       (burstLoop cfg now maxRead reqOff i fuel f reply st).st.current_session
          = st.current_session ∧
       (∀ a ∈ (burstLoop cfg now maxRead reqOff i fuel f reply st).acts,
          handleDelta a = 0)) := by
  intro fuel
  induction fuel with
  | zero =>
    intro i f reply st
    rw [burstLoop_zero]
    exact ⟨rfl, rfl, rfl, fun a ha => by simp at ha⟩
  | succ fuel ih =>
    intro i f reply st
    by_cases hrd : cfg.readOk f.pos (min 239 maxRead) = true
    case neg =>
      have hrd' : cfg.readOk f.pos (min 239 maxRead) = false := by
        revert hrd
        cases cfg.readOk f.pos (min 239 maxRead) <;> simp
      rw [burstLoop_succ_fail cfg now maxRead reqOff i fuel f reply st hrd']
      refine ⟨rfl, rfl, rfl, fun a ha => ?_⟩
      simp at ha
      subst ha
      rfl
    case pos =>
    by_cases hz : (burstRead f maxRead).length = 0
    · rw [burstLoop_succ_eof cfg now maxRead reqOff i fuel f reply st hrd hz]
      refine ⟨rfl, rfl, rfl, fun a ha => ?_⟩
      simp at ha
      subst ha
      rfl
    · rw [burstLoop_succ_pos cfg now maxRead reqOff i fuel f reply st hrd hz]
      obtain ⟨q1, q2, q3, q4⟩ := ih (i + 1)
        { f with pos := f.pos + (burstRead f maxRead).length }
        (burstNext (burstSent reply (burstRead f maxRead) maxRead reqOff i)
          (burstRead f maxRead).length maxRead)
        (pushState st (burstSent reply (burstRead f maxRead) maxRead reqOff i) now)
      refine ⟨by rw [q1]; rfl, by rw [q2]; rfl, by rw [q3]; rfl, fun a ha => ?_⟩
      rcases List.mem_cons.mp ha with rfl | hmem
      · rfl
      · exact q4 a hmem

theorem ftp_list_dir_acts (cfg : FtpConfig) (request reply : PendingFtp) :
    ∀ a ∈ (ftp_list_dir cfg request reply).2, handleDelta a = 0 := by
  unfold ftp_list_dir
  dsimp only
  repeat' split
  all_goals intro a ha
  all_goals simp at ha
  all_goals first
    | (subst ha; rfl)
    | (rcases ha with rfl | rfl <;> rfl)

theorem fdCount_nonneg (st : FtpState) : 0 ≤ fdCount st := by
  unfold fdCount
  split <;> decide

theorem fdCount_le_one (st : FtpState) : fdCount st ≤ 1 := by
  unfold fdCount
  split <;> decide

theorem fdCount_of_none (st : FtpState) (h : ¬ st.fd.isSome = true) : fdCount st = 0 := by
  unfold fdCount
  rw [if_neg h]

theorem fdCount_of_some (st : FtpState) (h : st.fd.isSome = true) : fdCount st = 1 := by
  unfold fdCount
  rw [if_pos h]

theorem goodTrace_append_zero (c0 : Int) (acts : List FsAct) (zs : List FsAct)
    (hg : goodTrace c0 acts) (hz : ∀ a ∈ zs, handleDelta a = 0)
    (h0 : 0 ≤ countAfter c0 acts) (h1 : countAfter c0 acts ≤ 1) :
    goodTrace c0 (acts ++ zs) ∧ countAfter c0 (acts ++ zs) = countAfter c0 acts := by
  constructor
  · exact goodTrace_append _ _ _ hg (goodTrace_zero _ hz _ h0 h1)
  · rw [countAfter_append]
    exact countAfter_zero _ hz _

theorem goodTrace_stat_open (p : List Nat) : goodTrace 0 [FsAct.statF p, FsAct.openF] := by
  norm_num [goodTrace, handleDelta]

theorem countAfter_stat_open (p : List Nat) :
    countAfter 0 [FsAct.statF p, FsAct.openF] = 1 := by
  norm_num [countAfter_cons, countAfter_nil, handleDelta]

theorem goodTrace_close : goodTrace 1 [FsAct.closeF] := by
  norm_num [goodTrace, handleDelta]

theorem countAfter_close : countAfter 1 [FsAct.closeF] = 0 := by
  norm_num [countAfter_cons, countAfter_nil, handleDelta]

theorem goodTrace_open : goodTrace 0 [FsAct.openF] := by
  norm_num [goodTrace, handleDelta]

theorem countAfter_open : countAfter 0 [FsAct.openF] = 1 := by
  norm_num [countAfter_cons, countAfter_nil, handleDelta]

theorem inv_finish (st' : FtpState) (r : PendingFtp) (now : Nat) (acts : List FsAct) (c0 : Int)
    (hinv' : SessionInv st') (hg' : goodTrace c0 acts)
    (hc' : countAfter c0 acts = fdCount st') :
    SessionInv (finishPush st' r now acts).state ∧
    goodTrace c0 (finishPush st' r now acts).acts ∧
    countAfter c0 (finishPush st' r now acts).acts
      = fdCount (finishPush st' r now acts).state :=
  ⟨hinv', hg', hc'⟩

theorem openRO_body_invariant (cfg : FtpConfig) (st1 : FtpState) (reply request : PendingFtp)
    (now : Nat) (acts1 : List FsAct) (c0 : Int)
    (hinv1 : SessionInv st1) (hg1 : goodTrace c0 acts1)
    (hc1 : countAfter c0 acts1 = fdCount st1) :
    SessionInv (openRO_body cfg st1 reply request now acts1).state ∧
    goodTrace c0 (openRO_body cfg st1 reply request now acts1).acts ∧
    countAfter c0 (openRO_body cfg st1 reply request now acts1).acts
      = fdCount (openRO_body cfg st1 reply request now acts1).state := by
  unfold openRO_body
  by_cases hfd : st1.fd.isSome = true
  · rw [if_pos hfd]
    exact inv_finish _ _ _ _ _ hinv1 hg1 hc1
  · rw [if_neg hfd]
    have hc0 : countAfter c0 acts1 = 0 := by rw [hc1]; exact fdCount_of_none st1 hfd
    split
    · exact inv_finish _ _ _ _ _ hinv1 hg1 hc1
    · dsimp only
      split
      · obtain ⟨hgz, hcz⟩ := goodTrace_append_zero c0 acts1 [FsAct.statF (pathOf request.data)]
          hg1 (by intro a ha; simp at ha; subst ha; rfl)
          (by rw [hc0]) (by rw [hc0]; decide)
        exact inv_finish _ _ _ _ _ hinv1 hgz (by rw [hcz, hc1])
      · split
        · obtain ⟨hgz, hcz⟩ := goodTrace_append_zero c0 acts1
            [FsAct.statF (pathOf request.data), FsAct.openFailF]
            hg1 (by intro a ha; simp at ha; rcases ha with rfl | rfl <;> rfl)
            (by rw [hc0]) (by rw [hc0]; decide)
          exact inv_finish _ _ _ _ _ hinv1 hgz (by rw [hcz, hc1])
        · have hgood : goodTrace c0
              (acts1 ++ [FsAct.statF (pathOf request.data), FsAct.openF]) := by
            refine goodTrace_append _ _ _ hg1 ?_
            rw [hc0]
            exact goodTrace_stat_open _
          have hcnt : countAfter c0
              (acts1 ++ [FsAct.statF (pathOf request.data), FsAct.openF]) = 1 := by
            rw [countAfter_append, hc0]
            exact countAfter_stat_open _
          have hsess : ∀ st3 : FtpState, st3.fd.isSome = true →
              st3.current_session = (request.session : Int) → SessionInv st3 := by
            intro st3 h1 h2
            unfold SessionInv
            rw [h1, h2]
            simp
          split
          · exact inv_finish _ _ _ _ _ (hsess _ rfl rfl) hgood (by rw [hcnt]; rfl)
          · exact inv_finish _ _ _ _ _ (hsess _ rfl rfl) hgood (by rw [hcnt]; rfl)

theorem dispatch_invariant (cfg : FtpConfig) (st : FtpState) (reply request : PendingFtp)
    (now : Nat) (acts0 : List FsAct) (c0 : Int)
    (hinv : SessionInv st) (hg : goodTrace c0 acts0)
    (hc : countAfter c0 acts0 = fdCount st) :
    SessionInv (ftp_dispatch cfg st reply request now acts0).state ∧
    goodTrace c0 (ftp_dispatch cfg st reply request now acts0).acts ∧
    countAfter c0 (ftp_dispatch cfg st reply request now acts0).acts
      = fdCount (ftp_dispatch cfg st reply request now acts0).state := by
  have hb0 : 0 ≤ countAfter c0 acts0 := by rw [hc]; exact fdCount_nonneg st
  have hb1 : countAfter c0 acts0 ≤ 1 := by rw [hc]; exact fdCount_le_one st
  cases hop : request.opcode <;> simp only [ftp_dispatch, hop]
  case None => exact inv_finish _ _ _ _ _ hinv hg hc
  case TerminateSession =>
    cases hfd : st.fd with
    | none =>
      refine inv_finish _ _ _ _ _ (by unfold SessionInv; simp) hg ?_
      rw [hc, fdCount_of_none st (by simp [hfd])]
      rfl
    | some f0 =>
      refine inv_finish _ _ _ _ _ (by unfold SessionInv; simp) ?_ ?_
      · refine goodTrace_append _ _ _ hg ?_
        rw [hc, fdCount_of_some st (by simp [hfd])]
        exact goodTrace_close
      · rw [countAfter_append, hc, fdCount_of_some st (by simp [hfd]), countAfter_close]
        rfl
  case ResetSessions =>
    cases hfd : st.fd with
    | none =>
      refine inv_finish _ _ _ _ _ (by unfold SessionInv; simp) hg ?_
      rw [hc, fdCount_of_none st (by simp [hfd])]
      rfl
    | some f0 =>
      refine inv_finish _ _ _ _ _ (by unfold SessionInv; simp) ?_ ?_
      · refine goodTrace_append _ _ _ hg ?_
        rw [hc, fdCount_of_some st (by simp [hfd])]
        exact goodTrace_close
      · rw [countAfter_append, hc, fdCount_of_some st (by simp [hfd]), countAfter_close]
        rfl
  case ListDirectory =>
    obtain ⟨hgz, hcz⟩ := goodTrace_append_zero c0 acts0 (ftp_list_dir cfg request reply).2
      hg (ftp_list_dir_acts cfg request reply) hb0 hb1
    exact inv_finish _ _ _ _ _ hinv hgz (by rw [hcz, hc])
  case OpenFileRO =>
    by_cases hrc : st.fd.isSome = true ∧ 3000 < sub32 now st.last_send_ms
    · rw [if_pos hrc]
      refine openRO_body_invariant cfg _ reply request now _ c0 ?_ ?_ ?_
      · unfold SessionInv; simp
      · refine goodTrace_append _ _ _ hg ?_
        rw [hc, fdCount_of_some st hrc.1]
        exact goodTrace_close
      · rw [countAfter_append, hc, fdCount_of_some st hrc.1, countAfter_close]
        rfl
    · rw [if_neg hrc]
      exact openRO_body_invariant cfg st reply request now acts0 c0 hinv hg hc
  case ReadFile =>
    cases hfd : st.fd with
    | none => exact inv_finish _ _ _ _ _ hinv hg hc
    | some f0 =>
      dsimp only
      by_cases hmode : st.mode ≠ FTP_FILE_MODE.Read
      · rw [if_pos hmode]
        exact inv_finish _ _ _ _ _ hinv hg hc
      · rw [if_neg hmode]
        by_cases hsk : cfg.seekOk request.offset = true
        case neg =>
          rw [if_neg hsk]
          obtain ⟨hgz, hcz⟩ := goodTrace_append_zero c0 acts0 [FsAct.seekF request.offset]
            hg (by intro a ha; simp at ha; subst ha; rfl) hb0 hb1
          exact inv_finish _ _ _ _ _ hinv hgz (by rw [hcz, hc])
        case pos =>
        rw [if_pos hsk]
        by_cases hrdk : cfg.readOk request.offset (min 239 request.size) = true
        case neg =>
          rw [if_neg hrdk]
          have hz2 : ∀ a ∈ [FsAct.seekF request.offset, FsAct.readF 0],
              handleDelta a = 0 := by
            intro a ha; simp at ha; rcases ha with rfl | rfl <;> rfl
          obtain ⟨hgz, hcz⟩ := goodTrace_append_zero c0 acts0 _ hg hz2 hb0 hb1
          have hinv2 : SessionInv { st with fd := some { f0 with pos := request.offset } } := by
            unfold SessionInv at hinv ⊢
            rw [hfd] at hinv
            simpa using hinv
          refine inv_finish _ _ _ _ _ hinv2 hgz ?_
          rw [hcz, hc, fdCount_of_some st (by simp [hfd])]
          rfl
        case pos =>
        rw [if_pos hrdk]
        have hz : ∀ a ∈ [FsAct.seekF request.offset,
            FsAct.readF ((f0.content.drop request.offset).take (min 239 request.size)).length],
            handleDelta a = 0 := by
          intro a ha; simp at ha; rcases ha with rfl | rfl <;> rfl
        obtain ⟨hgz, hcz⟩ := goodTrace_append_zero c0 acts0 _ hg hz hb0 hb1
        have hinv' : SessionInv { st with fd := some { f0 with
            pos := request.offset +
              ((f0.content.drop request.offset).take (min 239 request.size)).length } } := by
          unfold SessionInv at hinv ⊢
          rw [hfd] at hinv
          simpa using hinv
        have hcc : countAfter c0 (acts0 ++ [FsAct.seekF request.offset,
            FsAct.readF ((f0.content.drop request.offset).take (min 239 request.size)).length])
            = 1 := by
          rw [hcz, hc, fdCount_of_some st (by simp [hfd])]
        split
        · exact inv_finish _ _ _ _ _ hinv' hgz (by rw [hcc]; rfl)
        · exact inv_finish _ _ _ _ _ hinv' hgz (by rw [hcc]; rfl)
  case Ack => exact ⟨hinv, hg, hc⟩
  case Nack => exact ⟨hinv, hg, hc⟩
  case OpenFileWO =>
    by_cases hfd : st.fd.isSome = true
    · rw [if_pos hfd]
      exact inv_finish _ _ _ _ _ hinv hg hc
    · rw [if_neg hfd]
      have hc0 : countAfter c0 acts0 = 0 := by rw [hc]; exact fdCount_of_none st hfd
      split
      · exact inv_finish _ _ _ _ _ hinv hg hc
      · rw [if_neg (show ¬(FTP_OP.OpenFileWO = FTP_OP.CreateFile) by decide)]
        split
        · refine inv_finish _ _ _ _ _ ?_ ?_ ?_
          · unfold SessionInv
            simp
          · refine goodTrace_append _ _ _ hg ?_
            rw [hc0]
            exact goodTrace_open
          · rw [countAfter_append, hc0, countAfter_open]
            rfl
        · obtain ⟨hgz, hcz⟩ := goodTrace_append_zero c0 acts0 [FsAct.openFailF]
            hg (by intro a ha; simp at ha; subst ha; rfl) hb0 hb1
          exact inv_finish _ _ _ _ _ hinv hgz (by rw [hcz, hc])
  case CreateFile =>
    by_cases hfd : st.fd.isSome = true
    · rw [if_pos hfd]
      exact inv_finish _ _ _ _ _ hinv hg hc
    · rw [if_neg hfd]
      have hc0 : countAfter c0 acts0 = 0 := by rw [hc]; exact fdCount_of_none st hfd
      split
      · exact inv_finish _ _ _ _ _ hinv hg hc
      · rw [show (if True then cfg.createOk (pathOf request.data)
            else cfg.openWriteOk (pathOf request.data)) = cfg.createOk (pathOf request.data)
            from rfl]
        split
        · refine inv_finish _ _ _ _ _ ?_ ?_ ?_
          · unfold SessionInv
            simp
          · refine goodTrace_append _ _ _ hg ?_
            rw [hc0]
            exact goodTrace_open
          · rw [countAfter_append, hc0, countAfter_open]
            rfl
        · obtain ⟨hgz, hcz⟩ := goodTrace_append_zero c0 acts0 [FsAct.openFailF]
            hg (by intro a ha; simp at ha; subst ha; rfl) hb0 hb1
          exact inv_finish _ _ _ _ _ hinv hgz (by rw [hcz, hc])
  case WriteFile =>
    cases hfd : st.fd with
    | none => exact inv_finish _ _ _ _ _ hinv hg hc
    | some f0 =>
      dsimp only
      by_cases hmode : st.mode ≠ FTP_FILE_MODE.Write
      · rw [if_pos hmode]
        exact inv_finish _ _ _ _ _ hinv hg hc
      · rw [if_neg hmode]
        by_cases hsk : cfg.seekOk request.offset = true
        case neg =>
          rw [if_neg hsk]
          obtain ⟨hgz, hcz⟩ := goodTrace_append_zero c0 acts0 [FsAct.seekF request.offset]
            hg (by intro a ha; simp at ha; subst ha; rfl) hb0 hb1
          exact inv_finish _ _ _ _ _ hinv hgz (by rw [hcz, hc])
        case pos =>
        rw [if_pos hsk]
        have hz : ∀ a ∈ [FsAct.seekF request.offset, FsAct.writeF request.size],
            handleDelta a = 0 := by
          intro a ha; simp at ha; rcases ha with rfl | rfl <;> rfl
        obtain ⟨hgz, hcz⟩ := goodTrace_append_zero c0 acts0 _ hg hz hb0 hb1
        split
        · exact inv_finish _ _ _ _ _ hinv hgz (by rw [hcz, hc])
        · exact inv_finish _ _ _ _ _ hinv hgz (by rw [hcz, hc])
  case CreateDirectory =>
    split
    · exact inv_finish _ _ _ _ _ hinv hg hc
    · obtain ⟨hgz, hcz⟩ := goodTrace_append_zero c0 acts0 [FsAct.mkdirF (pathOf request.data)]
        hg (by intro a ha; simp at ha; subst ha; rfl) hb0 hb1
      split
      · exact inv_finish _ _ _ _ _ hinv hgz (by rw [hcz, hc])
      · exact inv_finish _ _ _ _ _ hinv hgz (by rw [hcz, hc])
  case RemoveDirectory =>
    split
    · exact inv_finish _ _ _ _ _ hinv hg hc
    · obtain ⟨hgz, hcz⟩ := goodTrace_append_zero c0 acts0 [FsAct.unlinkF (pathOf request.data)]
        hg (by intro a ha; simp at ha; subst ha; rfl) hb0 hb1
      split
      · exact inv_finish _ _ _ _ _ hinv hgz (by rw [hcz, hc])
      · exact inv_finish _ _ _ _ _ hinv hgz (by rw [hcz, hc])
  case RemoveFile =>
    split
    · exact inv_finish _ _ _ _ _ hinv hg hc
    · obtain ⟨hgz, hcz⟩ := goodTrace_append_zero c0 acts0 [FsAct.unlinkF (pathOf request.data)]
        hg (by intro a ha; simp at ha; subst ha; rfl) hb0 hb1
      split
      · exact inv_finish _ _ _ _ _ hinv hgz (by rw [hcz, hc])
      · exact inv_finish _ _ _ _ _ hinv hgz (by rw [hcz, hc])
  case CalcFileCRC32 =>
    split
    · exact inv_finish _ _ _ _ _ hinv hg hc
    · obtain ⟨hgz, hcz⟩ := goodTrace_append_zero c0 acts0 [FsAct.crcF (pathOf request.data)]
        hg (by intro a ha; simp at ha; subst ha; rfl) hb0 hb1
      split
      · exact inv_finish _ _ _ _ _ hinv hgz (by rw [hcz, hc])
      · exact inv_finish _ _ _ _ _ hinv hgz (by rw [hcz, hc])
  case TruncateFile => exact inv_finish _ _ _ _ _ hinv hg hc
  case Other v => exact inv_finish _ _ _ _ _ hinv hg hc
  case BurstReadFile =>
    cases hfd : st.fd with
    | none => exact inv_finish _ _ _ _ _ hinv hg hc
    | some f0 =>
      dsimp only
      by_cases hmode : st.mode ≠ FTP_FILE_MODE.Read
      · rw [if_pos hmode]
        exact inv_finish _ _ _ _ _ hinv hg hc
      · rw [if_neg hmode]
        by_cases hsk : cfg.seekOk request.offset = true
        case neg =>
          rw [if_neg hsk]
          obtain ⟨hgz, hcz⟩ := goodTrace_append_zero c0 acts0 [FsAct.seekF request.offset]
            hg (by intro a ha; simp at ha; subst ha; rfl) hb0 hb1
          exact inv_finish _ _ _ _ _ hinv hgz (by rw [hcz, hc])
        case pos =>
        rw [if_pos hsk]
        obtain ⟨q1, q2, q3, q4⟩ := burstLoop_state_acts cfg now
          (if request.size = 0 then 239 else request.size) request.offset 500 0
          { f0 with pos := request.offset } reply st
        have hz : ∀ a ∈ FsAct.seekF request.offset ::
            (burstLoop cfg now (if request.size = 0 then 239 else request.size)
              request.offset 0 500 { f0 with pos := request.offset } reply st).acts,
            handleDelta a = 0 := by
          intro a ha
          rcases List.mem_cons.mp ha with rfl | hmem
          · rfl
          · exact q4 a hmem
        obtain ⟨hgz, hcz⟩ := goodTrace_append_zero c0 acts0 _ hg hz hb0 hb1
        have hfds : fdCount st = 1 := fdCount_of_some st (by simp [hfd])
        have hsi : ∀ st' : FtpState, st'.fd.isSome = true →
            st'.current_session = st.current_session → SessionInv st' := by
          intro st' h1 h2
          unfold SessionInv at hinv ⊢
          rw [h1, h2]
          rw [hfd] at hinv
          simpa using hinv
        have hcc : countAfter c0 (acts0 ++ FsAct.seekF request.offset ::
            (burstLoop cfg now (if request.size = 0 then 239 else request.size)
              request.offset 0 500 { f0 with pos := request.offset } reply st).acts) = 1 := by
          rw [hcz, hc, hfds]
        by_cases hnk : (burstLoop cfg now (if request.size = 0 then 239 else request.size)
            request.offset 0 500 { f0 with pos := request.offset } reply st).reply.opcode
            = FTP_OP.Nack
        · rw [if_pos hnk]
          exact ⟨hsi _ rfl q3, hgz, hcc⟩
        · rw [if_neg hnk]
          exact ⟨hsi _ rfl q3, hgz, hcc⟩
  case Rename =>
    split
    · have hz : ∀ p1 p2 : List Nat, ∀ a ∈ [FsAct.renameF p1 p2], handleDelta a = 0 := by
        intro p1 p2 a ha; simp at ha; subst ha; rfl
      split
      · obtain ⟨hgz, hcz⟩ := goodTrace_append_zero c0 acts0 _ hg (hz _ _) hb0 hb1
        exact inv_finish _ _ _ _ _ hinv hgz (by rw [hcz, hc])
      · obtain ⟨hgz, hcz⟩ := goodTrace_append_zero c0 acts0 _ hg (hz _ _) hb0 hb1
        exact inv_finish _ _ _ _ _ hinv hgz (by rw [hcz, hc])
    · exact inv_finish _ _ _ _ _ hinv hg hc

/-- C3: the worker keeps at most one file descriptor open.  Starting from
any state satisfying `fd ≠ none ↔ current_session ≠ none`, one worker
iteration preserves that invariant; moreover its filesystem trace is
well bracketed: the running descriptor count stays within `[0, 1]` at
every point (so an opening opcode only opens after verifying no file is
open, including after any idle reclaim), and the final count agrees with
the resulting state (so every closing path also clears the session). -/
theorem single_open_file_spec (cfg : FtpConfig) (st : FtpState) (request : PendingFtp)
    (now : Nat) (hinv : SessionInv st) :
    SessionInv (ftp_worker_step cfg st request now).state ∧
    goodTrace (fdCount st) (ftp_worker_step cfg st request now).acts ∧
    countAfter (fdCount st) (ftp_worker_step cfg st request now).acts
      = fdCount (ftp_worker_step cfg st request now).state := by
  by_cases hre : retransmitMatch st.lastReply request
  · unfold ftp_worker_step
    rw [if_pos hre]
    exact ⟨hinv, ⟨fdCount_nonneg st, fdCount_le_one st⟩, rfl⟩
  · unfold ftp_worker_step
    rw [if_neg hre]
    dsimp only
    by_cases hsz : 239 < request.size
    · rw [if_pos hsz]
      exact inv_finish _ _ _ _ _ hinv ⟨fdCount_nonneg st, fdCount_le_one st⟩ rfl
    · rw [if_neg hsz]
      unfold sessionCheck
      split
      · exact inv_finish _ _ _ _ _ hinv ⟨fdCount_nonneg st, fdCount_le_one st⟩ rfl
      · split
        · exact inv_finish _ _ _ _ _ hinv ⟨fdCount_nonneg st, fdCount_le_one st⟩ rfl
        · split
          · rename_i h3
            refine dispatch_invariant cfg _ _ request now [FsAct.closeF] (fdCount st) ?_ ?_ ?_
            · unfold SessionInv; simp
            · rw [fdCount_of_some st h3.1]
              exact goodTrace_close
            · rw [fdCount_of_some st h3.1, countAfter_close]
              rfl
          · exact dispatch_invariant cfg st _ request now [] (fdCount st) hinv
              ⟨fdCount_nonneg st, fdCount_le_one st⟩ rfl

/-- Witness for C3: a successful `OpenFileRO` on the initial state keeps
the invariant, with a well-bracketed trace ending at one open file. -/
theorem single_open_file_witness :
    SessionInv (ftp_worker_step cfgC3 initFtpState reqC3 0).state ∧
    goodTrace (fdCount initFtpState) (ftp_worker_step cfgC3 initFtpState reqC3 0).acts ∧
    countAfter (fdCount initFtpState) (ftp_worker_step cfgC3 initFtpState reqC3 0).acts
      = fdCount (ftp_worker_step cfgC3 initFtpState reqC3 0).state :=
  single_open_file_spec cfgC3 initFtpState reqC3 0 (by unfold SessionInv; decide)

theorem rename_accept_iff (data : List Nat) (size : Nat) :
    rename_accept data size = true ↔
      (data.getD (strnlen data 237) 1 = 0 ∧
        (strnlen data 237 +
            strnlen (data.drop (strnlen data 237 + 1)) (239 - (strnlen data 237 + 1)) + 1
            = size ∨
          (size - (strnlen data 237 +
              strnlen (data.drop (strnlen data 237 + 1)) (239 - (strnlen data 237 + 1))) = 2 ∧
            data.getD 238 1 = 0))) := by
  unfold rename_accept
  by_cases hS : size = 0
  · simp [hS]
  · by_cases hA : data.getD (strnlen data 237) 1 = 0
    · by_cases hB : strnlen data 237 +
          strnlen (data.drop (strnlen data 237 + 1)) (239 - (strnlen data 237 + 1)) + 1 = size
      · simp [hA, hB, hS]
      · by_cases hC1 : size - (strnlen data 237 +
            strnlen (data.drop (strnlen data 237 + 1)) (239 - (strnlen data 237 + 1))) = 2
        · by_cases hC2 : data.getD 238 1 = 0
          · simp [hA, hB, hC1, hC2, hS]
          · simp [hA, hB, hC1, hC2, hS]
        · simp [hA, hB, hC1, hS]
    · simp [hA, hS]

/-- C7: the `Rename` payload is accepted, and the rename attempted,
exactly when `data[len1] = 0` and either `len1 + len2 + 1 = size` or
`size - (len1 + len2) = 2` with `data[238] = 0` (`len1 = strnlen(data,
237)`, `len2 = strnlen(data + len1 + 1, 239 - len1 - 1)`); otherwise the
reply is a Nack with `InvalidDataSize` and no rename is attempted. -/
theorem rename_validation_spec (cfg : FtpConfig) (st : FtpState) (request : PendingFtp)
    (now : Nat)
    (hre : ¬ retransmitMatch st.lastReply request)
    (hsz : request.size ≤ 239)
    (hop : request.opcode = FTP_OP.Rename)
    (hsess : (request.session : Int) = st.current_session) :
    (rename_accept request.data request.size = true ↔
      (request.data.getD (strnlen request.data 237) 1 = 0 ∧
        (strnlen request.data 237 +
            strnlen (request.data.drop (strnlen request.data 237 + 1))
              (239 - (strnlen request.data 237 + 1)) + 1 = request.size ∨
          (request.size - (strnlen request.data 237 +
              strnlen (request.data.drop (strnlen request.data 237 + 1))
                (239 - (strnlen request.data 237 + 1))) = 2 ∧
            request.data.getD 238 1 = 0)))) ∧
    (rename_accept request.data request.size = true →
      ∃ p1 p2, FsAct.renameF p1 p2 ∈ (ftp_worker_step cfg st request now).acts) ∧
    (rename_accept request.data request.size = false →
      (ftp_worker_step cfg st request now).replies =
        [ftp_error (mkReplyHeader request) FTP_ERROR.InvalidDataSize cfg.errno] ∧
      (ftp_error (mkReplyHeader request) FTP_ERROR.InvalidDataSize cfg.errno).opcode
        = FTP_OP.Nack ∧
      (ftp_error (mkReplyHeader request) FTP_ERROR.InvalidDataSize cfg.errno).data.getD 0 1
        = errCode FTP_ERROR.InvalidDataSize ∧
      (ftp_worker_step cfg st request now).acts = []) := by
  refine ⟨rename_accept_iff request.data request.size, ?_, ?_⟩
  all_goals
    intro hacc
    unfold ftp_worker_step
    rw [if_neg hre, if_neg (by omega : ¬ 239 < request.size)]
    unfold sessionCheck
    rw [if_neg (show ¬((request.session : Int) ≠ st.current_session ∧
        (request.opcode = FTP_OP.TerminateSession ∨ request.opcode = FTP_OP.ResetSessions))
        from fun h => h.1 hsess)]
    rw [if_neg (show ¬(st.fd.isSome = true ∧ (request.session : Int) ≠ st.current_session ∧
        sub32 now st.last_send_ms < 3000) from fun h => h.2.1 hsess)]
    rw [if_neg (show ¬(st.fd.isSome = true ∧ (request.session : Int) ≠ st.current_session ∧
        ¬ sub32 now st.last_send_ms < 3000) from fun h => h.2.1 hsess)]
    simp only [ftp_dispatch, hop]
  · rw [if_pos hacc]
    split
    all_goals
      refine ⟨List.takeWhile (fun b => b != 0) (request.data.set 238 0),
        List.takeWhile (fun b => b != 0)
          (List.drop (strnlen request.data 237 + 1) (request.data.set 238 0)), ?_⟩
      rw [finishPush_acts]
      simp
  · rw [if_neg (show ¬(rename_accept request.data request.size = true) from by
      rw [hacc]; exact Bool.false_ne_true)]
    have hp := ftp_error_hdr_props request FTP_ERROR.InvalidDataSize cfg.errno (by decide)
    exact ⟨finishPush_replies _ _ _ _, hp.1, hp.2.1, finishPush_acts _ _ _ _⟩

/-- Witness for C7: the three payload vectors of the claim, at a
concrete state: `"a\0b\0"`/4 and `"a\0b"`/3 are accepted and the rename
attempted; `"ab"`/2 is rejected with an `InvalidDataSize` Nack. -/
theorem rename_validation_witness :
    (∃ p1 p2, FsAct.renameF p1 p2 ∈ (ftp_worker_step cfg0 stC7 reqC7a 0).acts) ∧
    (∃ p1 p2, FsAct.renameF p1 p2 ∈ (ftp_worker_step cfg0 stC7 reqC7b 0).acts) ∧
    (ftp_worker_step cfg0 stC7 reqC7c 0).replies =
      [ftp_error (mkReplyHeader reqC7c) FTP_ERROR.InvalidDataSize cfg0.errno] ∧
    (ftp_error (mkReplyHeader reqC7c) FTP_ERROR.InvalidDataSize cfg0.errno).data.getD 0 1 = 3 := by
  have ha := (rename_validation_spec cfg0 stC7 reqC7a 0 (by decide) (by decide) rfl
    (by decide)).2.1 (by decide)
  have hb := (rename_validation_spec cfg0 stC7 reqC7b 0 (by decide) (by decide) rfl
    (by decide)).2.1 (by decide)
  have hcr := (rename_validation_spec cfg0 stC7 reqC7c 0 (by decide) (by decide) rfl
    (by decide)).2.2 (by decide)
  exact ⟨ha, hb, hcr.1, hcr.2.2.1⟩

/-- Every byte at or past the packed index of a zero-filled listing
buffer reads back as zero. -/
theorem zeroFill_getD (buf : List Nat) (i k : Nat) (h : i ≤ k) :
    (zeroFill buf i).getD k 0 = 0 := by
  unfold zeroFill
  rw [List.getD_eq_getElem?_getD,
    List.getElem?_append_right (by rw [List.length_take]; omega),
    List.getElem?_replicate]
  split <;> rfl

/-- C8: a ListDirectory request skips `request.offset` entries, where an
entry whose generation comes back negative does not decrement the skip
counter while a listable one does; packing stops at the first record
that does not fit; a skip past the end of the directory, or a pack that
places nothing, yields an EndOfFile Nack; otherwise the reply is an Ack
of size `index` whose data bytes from `index` on are zero-filled. -/
theorem list_directory_spec (cfg : FtpConfig) (st : FtpState) (request : PendingFtp)
    (now : Nat)
    (hre : ¬ retransmitMatch st.lastReply request)
    (hsz : request.size ≤ 239)
    (hop : request.opcode = FTP_OP.ListDirectory)
    (hsess : (request.session : Int) = st.current_session) :
    (ftp_worker_step cfg st request now).replies =
      [(ftp_list_dir cfg request (mkReplyHeader request)).1] ∧
    (∀ (off : Nat) (e : Option (List Nat)) (es : List (Option (List Nat))),
      gen_needed 239 e < 0 →
      skipEntries (off + 1) (e :: es) = skipEntries (off + 1) es) ∧
    (∀ (off : Nat) (e : Option (List Nat)) (es : List (Option (List Nat))),
      0 ≤ gen_needed 239 e → gen_needed 239 e ≤ 239 →
      skipEntries (off + 1) (e :: es) = skipEntries off es) ∧
    (∀ (e : Option (List Nat)) (es : List (Option (List Nat))) (index : Nat) (buf : List Nat),
      0 ≤ gen_needed (239 - index) e →
      239 ≤ (gen_needed (239 - index) e).toNat + index →
      packEntries (e :: es) index buf = (index, buf)) ∧
    (∀ entries, ftp_check_name_len request.data request.size = true →
      cfg.readDir (listPath request.data) = some entries →
      (skipEntries request.offset entries = none ∨
        (∃ rest, skipEntries request.offset entries = some rest ∧
          (packEntries rest 0 (List.replicate 239 0)).1 = 0)) →
      (ftp_list_dir cfg request (mkReplyHeader request)).1 =
        ftp_error { mkReplyHeader request with offset := request.offset }
          FTP_ERROR.EndOfFile cfg.errno ∧
      (ftp_list_dir cfg request (mkReplyHeader request)).1.opcode = FTP_OP.Nack ∧
      (ftp_list_dir cfg request (mkReplyHeader request)).1.data.getD 0 1 =
        errCode FTP_ERROR.EndOfFile) ∧
    (∀ entries rest, ftp_check_name_len request.data request.size = true →
      cfg.readDir (listPath request.data) = some entries →
      skipEntries request.offset entries = some rest →
      (packEntries rest 0 (List.replicate 239 0)).1 ≠ 0 →
      (ftp_list_dir cfg request (mkReplyHeader request)).1 =
        { mkReplyHeader request with
            offset := request.offset
            opcode := FTP_OP.Ack
            size := (packEntries rest 0 (List.replicate 239 0)).1
            data := zeroFill (packEntries rest 0 (List.replicate 239 0)).2
              (packEntries rest 0 (List.replicate 239 0)).1 } ∧
      (∀ k, (packEntries rest 0 (List.replicate 239 0)).1 ≤ k →
        (ftp_list_dir cfg request (mkReplyHeader request)).1.data.getD k 0 = 0)) := by
  refine ⟨?_, ?_, ?_, ?_, ?_, ?_⟩
  · unfold ftp_worker_step
    rw [if_neg hre, if_neg (by omega : ¬ 239 < request.size)]
    unfold sessionCheck
    rw [if_neg (show ¬((request.session : Int) ≠ st.current_session ∧
        (request.opcode = FTP_OP.TerminateSession ∨ request.opcode = FTP_OP.ResetSessions))
        from fun h => h.1 hsess)]
    rw [if_neg (show ¬(st.fd.isSome = true ∧ (request.session : Int) ≠ st.current_session ∧
        sub32 now st.last_send_ms < 3000) from fun h => h.2.1 hsess)]
    rw [if_neg (show ¬(st.fd.isSome = true ∧ (request.session : Int) ≠ st.current_session ∧
        ¬ sub32 now st.last_send_ms < 3000) from fun h => h.2.1 hsess)]
    simp only [ftp_dispatch, hop]
    rw [finishPush_replies]
  · intro off e es hneg
    simp only [skipEntries]
    rw [if_pos (Or.inl hneg)]
  · intro off e es h0 h239
    simp only [skipEntries]
    rw [if_neg (show ¬(gen_needed 239 e < 0 ∨ 239 < gen_needed 239 e) from by omega)]
  · intro e es index buf h0 hfit
    simp only [packEntries]
    rw [if_neg (show ¬(gen_needed (239 - index) e < 0) from by omega), if_pos hfit]
  · intro entries hname hrd hcase
    have hbody : (ftp_list_dir cfg request (mkReplyHeader request)).1 =
        ftp_error { mkReplyHeader request with offset := request.offset }
          FTP_ERROR.EndOfFile cfg.errno := by
      unfold ftp_list_dir
      dsimp only
      rw [if_neg (show ¬¬(ftp_check_name_len request.data request.size = true) from
        not_not_intro hname)]
      rw [hrd]
      dsimp only
      rcases hcase with hskip | ⟨rest, hskip, hz⟩
      · rw [hskip]
      · rw [hskip]
        dsimp only
        rw [if_pos hz]
    refine ⟨hbody, ?_, ?_⟩
    · rw [hbody]
      exact ftp_error_opcode _ _ _
    · rw [hbody]
      exact ftp_error_data0 _ _ _ (by decide) (by
        rw [show ({ mkReplyHeader request with offset := request.offset } : PendingFtp).data =
          List.replicate 239 0 from rfl, List.length_replicate]
        omega)
  · intro entries rest hname hrd hskip hnz
    have hbody : (ftp_list_dir cfg request (mkReplyHeader request)).1 =
        { mkReplyHeader request with
            offset := request.offset
            opcode := FTP_OP.Ack
            size := (packEntries rest 0 (List.replicate 239 0)).1
            data := zeroFill (packEntries rest 0 (List.replicate 239 0)).2
              (packEntries rest 0 (List.replicate 239 0)).1 } := by
      unfold ftp_list_dir
      dsimp only
      rw [if_neg (show ¬¬(ftp_check_name_len request.data request.size = true) from
        not_not_intro hname)]
      rw [hrd]
      dsimp only
      rw [hskip]
      dsimp only
      rw [if_neg hnz]
    refine ⟨hbody, fun k hk => ?_⟩
    rw [hbody]
    exact zeroFill_getD _ _ _ hk

/-- Witness for C8 at a concrete directory: with offset 1, the
unlistable first entry is not counted by the skip, the first listable
record is skipped, the second (2 bytes plus NUL terminator) is packed,
and the reply is an Ack of size 3 with a zeroed tail; with offset 9 the
skip runs off the end and the reply is an EndOfFile Nack. -/
theorem list_directory_witness :
    (ftp_worker_step cfgC8 stC8 reqC8 0).replies =
      [(ftp_list_dir cfgC8 reqC8 (mkReplyHeader reqC8)).1] ∧
    skipEntries 1 [Option.none, Option.some [102, 49], Option.some [102, 50]] =
      some [Option.some [102, 50]] ∧
    (ftp_list_dir cfgC8 reqC8 (mkReplyHeader reqC8)).1.opcode = FTP_OP.Ack ∧
    (ftp_list_dir cfgC8 reqC8 (mkReplyHeader reqC8)).1.size = 3 ∧
    (ftp_list_dir cfgC8 reqC8 (mkReplyHeader reqC8)).1.data.getD 100 0 = 0 ∧
    (ftp_list_dir cfgC8 reqC8e (mkReplyHeader reqC8e)).1.opcode = FTP_OP.Nack ∧
    (ftp_list_dir cfgC8 reqC8e (mkReplyHeader reqC8e)).1.data.getD 0 1 =
      errCode FTP_ERROR.EndOfFile := by
  have h := list_directory_spec cfgC8 stC8 reqC8 0 (by decide) (by decide) rfl (by decide)
  have he := list_directory_spec cfgC8 stC8 reqC8e 0 (by decide) (by decide) rfl (by decide)
  have hack := h.2.2.2.2.2 [Option.none, Option.some [102, 49], Option.some [102, 50]]
    [Option.some [102, 50]] (by decide) (by decide) (by decide) (by decide)
  have heof := he.2.2.2.2.1 [Option.none, Option.some [102, 49], Option.some [102, 50]]
    (by decide) (by decide) (Or.inl (by decide))
  refine ⟨h.1, by decide, ?_, ?_, hack.2 100 (by decide), heof.2.1, heof.2.2⟩
  · rw [hack.1]
  · rw [hack.1]
    decide
